import Mathlib

/-!
Verification development for the FSS operator core of
nokia/net-attach-def-admission-controller.

The file shallowly embeds:
  * the VLAN range parser `GetVlanIds` (pkg/datatypes/datatypes.go),
  * the NAD validator `ShouldTriggerTopoAction` and the update
    classifier `ShouldTriggerTopoUpdate` (pkg/datatypes/datatypes.go),
  * the fabric object engine of the FSS client (pkg/fssclient):
    `CreateSubnetInterface`, `AttachSubnetInterface`,
    `DeleteSubnetInterface`, `CreateHostPort`, `GetHostPort`,
    `AttachHostPort`, `DetachHostPort`, together with the durable
    mirror `Database`.

Go maps are modelled as `String → Option β` for the outer maps of the
mirror (these are always allocated by the Go code) and as association
lists for the inner maps (whose length the Go code inspects).  The FSS
server is an abstract environment supplying, per request, either a
transport failure or a status code plus the response object obtained
after `json.Unmarshal` merged the response into the request struct.
JSON decoding of Kubernetes objects is abstracted: a NAD carries the
already-decoded `NetConf` and the decoded value of the vlan-trunk
overlays annotation.
-/

namespace FssOp

/-! ### Finite map helpers -/

/-- Update of a `String`-keyed map, `m[k] = v` in Go. -/
def mset {β : Type} (m : String → Option β) (k : String) (v : β) : String → Option β :=
  fun x => if x = k then some v else m x

/-- Removal from a `String`-keyed map, `delete(m, k)` in Go. -/
def mdel {β : Type} (m : String → Option β) (k : String) : String → Option β :=
  fun x => if x = k then none else m x

/-- Lookup in an association list (inner Go map). -/
def alookup {κ ν : Type} [DecidableEq κ] : List (κ × ν) → κ → Option ν
  | [], _ => none
  | p :: t, k => if p.1 = k then some p.2 else alookup t k

/-- Removal from an association list, `delete(m, k)` on an inner Go map. -/
def adel {κ ν : Type} [DecidableEq κ] (l : List (κ × ν)) (k : κ) : List (κ × ν) :=
  l.filter (fun p => decide (p.1 ≠ k))

/-- Update of an association list, `m[k] = v` on an inner Go map. -/
def aset {κ ν : Type} [DecidableEq κ] (l : List (κ × ν)) (k : κ) (v : ν) : List (κ × ν) :=
  (k, v) :: adel l k

/-- Write through a two-level map, `m[k][key] = v` in Go.  The Go code
only ever executes such a write when the inner map exists; reading a
missing key yields the nil map, for which the write would panic, so the
states reached by the code always have the inner map allocated and the
`getD []` default is never the case that distinguishes this model. -/
def msetIn {κ ν : Type} [DecidableEq κ] (m : String → Option (List (κ × ν)))
    (k : String) (key : κ) (v : ν) : String → Option (List (κ × ν)) :=
  mset m k (aset ((m k).getD []) key v)

/-- Delete through a two-level map, `delete(m[k], key)` in Go: a no-op
when the outer key is absent (deleting from the nil map). -/
def mdelIn {κ ν : Type} [DecidableEq κ] (m : String → Option (List (κ × ν)))
    (k : String) (key : κ) : String → Option (List (κ × ν)) :=
  fun x => if x = k then (m k).map (fun l => adel l key) else m x

/-! ### VLAN range parser (datatypes.go, `GetVlanIds`, lines 108-136) -/

/-- One character of the charset of the regular expression
accepted by `GetVlanIds` (digits, comma, hyphen). -/
def vlanCharOk (c : Char) : Bool := c.isDigit || c == ',' || c == '-'

/-- `strings.Split` on a single separator character (Go semantics:
splitting the empty string yields one empty field). -/
def splitOnChar (c : Char) : List Char → List (List Char)
  | [] => [[]]
  | x :: xs =>
    if x = c then [] :: splitOnChar c xs
    else
      match splitOnChar c xs with
      | [] => [[x]]
      | y :: ys => (x :: y) :: ys

/-- Numeric value of a digit string. -/
def digitsVal (l : List Char) : Nat :=
  l.foldl (fun acc c => acc * 10 + (c.toNat - 48)) 0

/-- `strconv.Atoi` with its error discarded, for the digit-only operands
that reach it inside `GetVlanIds` (the input already matched the
charset, so the split fields contain only digits, possibly none):
a syntax error (empty string) yields 0 and a range error clamps the
value to the largest 64-bit int, exactly as Go returns them alongside
the discarded error. -/
def goAtoi (l : List Char) : Nat :=
  if l ≠ [] ∧ l.all Char.isDigit then min (digitsVal l) (2 ^ 63 - 1) else 0

/-- The element loop of `GetVlanIds` (lines 115-134), accumulating the
partially built result exactly as the Go code returns it on error. -/
def getVlanIdsLoop : List (List Char) → List Nat → List Nat × Bool
  | [], acc => (acc, false)
  | v :: rest, acc =>
    if v.contains '-' then
      match splitOnChar '-' v with
      | [n0, n1] =>
        if goAtoi n0 = 0 ∨ goAtoi n1 < goAtoi n0 then (acc, true)
        else getVlanIdsLoop rest (acc ++ List.range' (goAtoi n0) (goAtoi n1 - goAtoi n0 + 1))
      | _ => (acc, true)
    else getVlanIdsLoop rest (acc ++ [goAtoi v])

/-- `GetVlanIds` over the character list of the input string.  The
boolean is true when the Go function returns a non-nil error. -/
def GetVlanIdsL (l : List Char) : List Nat × Bool :=
  if l.all vlanCharOk then getVlanIdsLoop (splitOnChar ',' l) [] else ([], true)

/-- `GetVlanIds` (datatypes.go lines 108-136). -/
def GetVlanIds (s : String) : List Nat × Bool := GetVlanIdsL s.toList

/-- `strings.Join(rs, ",")` over character lists. -/
def joinComma : List (List Char) → List Char
  | [] => []
  | [r] => r
  | r :: rs => r ++ ',' :: joinComma rs

/-- A comma-separated element on which the loop of `GetVlanIds`
reports an error: a hyphenated element that does not split in exactly
two parts, or whose parsed lower bound is zero or above its parsed
upper bound. -/
def badRangeElem (v : List Char) : Bool :=
  v.contains '-' &&
    (match splitOnChar '-' v with
     | [n0, n1] => decide (goAtoi n0 = 0 ∨ goAtoi n1 < goAtoi n0)
     | _ => true)

/-! ### NAD validator (datatypes.go, lines 164-336) -/

def SriovResourceKey : String := "k8s.v1.cni.cncf.io/resourceName"

def NodeSelectorKey : String := "k8s.v1.cni.cncf.io/nodeSelector"

def ExtProjectNameKey : String := "nokia.com/extProjectName"

def ExtNetworkNameKey : String := "nokia.com/extNetworkName"

/-- The NCS `NetConf` fields inspected by the validator. -/
structure NetConf where
  type : String
  master : String
  vlan : Int
  vlanTrunk : String
deriving DecidableEq

/-- One element of the decoded `sriov-vf-vlan-trunk-overlays`
annotation: a JSON object decoded to `map[string]string`, of which the
validator reads the three given keys (each possibly missing). -/
structure Overlay where
  extProjectName : Option String
  extNetworkName : Option String
  vlanRange : Option String
deriving DecidableEq

/-- Decoded state of the `sriov-vf-vlan-trunk-overlays` annotation:
missing or empty, present but not valid JSON, or decoded. -/
inductive OverlayAnno where
  | absent
  | invalid
  | parsed (overlays : List Overlay)
deriving DecidableEq

/-- A NetworkAttachmentDefinition as seen by the validator: the decoded
CNI config together with the annotations map; the JSON decoding of the
overlays annotation is abstracted into `overlayAnno`. -/
structure Nad where
  netConf : NetConf
  annotations : List (String × String)
  overlayAnno : OverlayAnno

/-- `NadAction` constants of datatypes.go. -/
inductive NadAction where
  | create
  | delete
  | createAttach
  | deleteDetach
  | updateAttachDetach
  | updateAttach
  | updateDetach
  | nodeAttach
  | nodeDetach
  | nodeAttachDetach
deriving DecidableEq

/-- The distinct error returns of the validator and the update
classifier (each constructor stands for one `fmt.Errorf` site). -/
inductive TopoErr where
  | ipvlanVlanRange
  | ipvlanMaster
  | sriovResourceName
  | sriovVlanRange
  | invalidTrunk
  | missingOverlays
  | invalidOverlaysFormat
  | invalidOverlayValue
  | invalidOverlayRange
  | vlanMismatch
  | ineligibleChange
  | typeChange
  | vlanChange
  | resourceNameChange
  | projectChange
  | networkChange
  | trunkShrink
  | trunkAndSelectorChange
deriving DecidableEq

/-- `annotationsMap[key]` followed by the Go two-value test
`ok && len(v) > 0`. -/
def annoNonEmpty (o : Option String) : Bool :=
  match o with
  | none => false
  | some s => !(s == "")

/-- `annotationsMap[key]` with the zero value for a missing key
(single-value Go map read). -/
def lookupD (annos : List (String × String)) (key : String) : String :=
  (alookup annos key).getD ""

/-- `strings.HasPrefix s p`. -/
def stringStarts (p s : String) : Bool := p.toList.isPrefixOf s.toList

/-- The loop over the decoded overlays (datatypes.go lines 234-246):
each overlay must carry the three keys and its `vlanRange` must parse;
the ranges are collected in order. -/
def collectRanges : List Overlay → Except TopoErr (List String)
  | [] => .ok []
  | o :: os =>
    match o.extProjectName, o.extNetworkName, o.vlanRange with
    | some _, some _, some r =>
      if (GetVlanIds r).2 then .error .invalidOverlayRange
      else
        match collectRanges os with
        | .error e => .error e
        | .ok rs => .ok (r :: rs)
    | _, _, _ => .error .invalidOverlayValue

/-- An overlay that passes the per-overlay checks of the validator
loop: all three keys present and a parseable vlan range. -/
def overlayOk (o : Overlay) : Bool :=
  match o.extProjectName, o.extNetworkName, o.vlanRange with
  | some _, some _, some r => !(GetVlanIds r).2
  | _, _, _ => false

/-- The vlan range of an overlay (defaulting, never used on overlays
without the key). -/
def overlayRange (o : Overlay) : String := (o.vlanRange).getD ""

/-- Overlay sub-mode of the sriov branch (datatypes.go lines 218-254). -/
def overlayModeCheck (netConf : NetConf) (nad : Nad) : NetConf × Bool × Option TopoErr :=
  let p := GetVlanIds netConf.vlanTrunk
  if p.2 then (netConf, false, some .invalidTrunk)
  else
    match nad.overlayAnno with
    | .absent => (netConf, false, some .missingOverlays)
    | .invalid => (netConf, false, some .invalidOverlaysFormat)
    | .parsed overlays =>
      match collectRanges overlays with
      | .error e => (netConf, false, some e)
      | .ok vlanRanges =>
        let overlayVlanIds := (GetVlanIdsL (joinComma (vlanRanges.map String.toList))).1
        if List.insertionSort (· ≤ ·) overlayVlanIds = List.insertionSort (· ≤ ·) p.1
        then (netConf, true, none)
        else (netConf, false, some .vlanMismatch)

/-- VLAN sub-mode tail of the validator (datatypes.go lines 207-217):
missing or empty project or network annotations make the NAD merely
ineligible, with no error. -/
def vlanModeCheck (netConf : NetConf) (nad : Nad) : NetConf × Bool × Option TopoErr :=
  if annoNonEmpty (alookup nad.annotations ExtProjectNameKey) = false then (netConf, false, none)
  else if annoNonEmpty (alookup nad.annotations ExtNetworkNameKey) = false then (netConf, false, none)
  else (netConf, true, none)

/-- `ShouldTriggerTopoAction` (datatypes.go lines 164-256). -/
def ShouldTriggerTopoAction (nad : Nad) : NetConf × Bool × Option TopoErr :=
  let netConf := nad.netConf
  if netConf.type ≠ "ipvlan" ∧ netConf.type ≠ "sriov" then (netConf, false, none)
  else if annoNonEmpty (alookup nad.annotations NodeSelectorKey) = false then (netConf, false, none)
  else if netConf.type = "ipvlan" then
    if netConf.vlan < 1 ∨ 4095 < netConf.vlan then (netConf, false, some .ipvlanVlanRange)
    else if ¬ stringStarts "tenant" netConf.master = true ∧
            ¬ stringStarts "provider" netConf.master = true then
      (netConf, false, some .ipvlanMaster)
    else vlanModeCheck netConf nad
  else
    if annoNonEmpty (alookup nad.annotations SriovResourceKey) = false then
      (netConf, false, some .sriovResourceName)
    else if netConf.vlanTrunk ≠ "" then overlayModeCheck netConf nad
    else if netConf.vlan < 0 ∨ 4095 < netConf.vlan then (netConf, false, some .sriovVlanRange)
    else vlanModeCheck netConf nad

/-- `ShouldTriggerTopoUpdate` (datatypes.go lines 258-336).  The triple
is (action, netConf, error) with `none` for the Go zero action. -/
def ShouldTriggerTopoUpdate (oldNad newNad : Nad) : Option NadAction × NetConf × Option TopoErr :=
  let r1 := ShouldTriggerTopoAction oldNad
  let r2 := ShouldTriggerTopoAction newNad
  let oldNetConf := r1.1
  let trigger1 := r1.2.1
  let newNetConf := r2.1
  let trigger2 := r2.2.1
  match r2.2.2 with
  | some e => (none, newNetConf, some e)
  | none =>
    if trigger1 = false ∧ trigger2 = false then (none, newNetConf, none)
    else if trigger1 = false ∧ trigger2 = true then (some .updateAttach, newNetConf, none)
    else if trigger1 = true ∧ trigger2 = false then (none, newNetConf, some .ineligibleChange)
    else if oldNetConf.type ≠ newNetConf.type then (none, newNetConf, some .typeChange)
    else if oldNetConf.vlan ≠ newNetConf.vlan then (none, newNetConf, some .vlanChange)
    else
      let vlanMode : Bool := oldNetConf.vlanTrunk == ""
      let anno1 := oldNad.annotations
      let anno2 := newNad.annotations
      if newNetConf.type = "sriov" ∧
         lookupD anno1 SriovResourceKey ≠ lookupD anno2 SriovResourceKey then
        (none, newNetConf, some .resourceNameChange)
      else if vlanMode = true ∧
              lookupD anno1 ExtProjectNameKey ≠ lookupD anno2 ExtProjectNameKey then
        (none, newNetConf, some .projectChange)
      else if vlanMode = true ∧
              lookupD anno1 ExtNetworkNameKey ≠ lookupD anno2 ExtNetworkNameKey then
        (none, newNetConf, some .networkChange)
      else if vlanMode = false ∧ oldNetConf.vlanTrunk ≠ newNetConf.vlanTrunk ∧
              ((GetVlanIds oldNetConf.vlanTrunk).1.any
                (fun v => !((GetVlanIds newNetConf.vlanTrunk).1.contains v))) = true then
        (none, newNetConf, some .trunkShrink)
      else
        let ns1 := lookupD anno1 NodeSelectorKey
        let ns2 := lookupD anno2 NodeSelectorKey
        if vlanMode = false ∧ oldNetConf.vlanTrunk ≠ newNetConf.vlanTrunk then
          if ns1 ≠ ns2 then (none, newNetConf, some .trunkAndSelectorChange)
          else (some .updateAttach, newNetConf, none)
        else if ns1 = ns2 then (none, newNetConf, none)
        else (some .updateAttachDetach, newNetConf, none)

/-! ### FSS client data types (fssclient, API structs) -/

/-- Tenant, with the fields the engine reads or writes. -/
structure Tenant where
  deploymentId : String
  fssWorkloadEvpnId : String
  fssWorkloadEvpnName : String
  name : String
  fssManaged : Bool
  id : String
  status : String
deriving DecidableEq

/-- Subnet. -/
structure Subnet where
  deploymentId : String
  tenantId : String
  fssSubnetId : String
  fssSubnetName : String
  name : String
  fssManaged : Bool
  id : String
  status : String
deriving DecidableEq

/-- HostPortLabel. -/
structure HostPortLabel where
  deploymentId : String
  name : String
  id : String
  status : String
deriving DecidableEq

/-- SubnetAssociation. -/
structure SubnetAssociation where
  deploymentId : String
  hostPortLabelId : String
  subnetId : String
  vlanType : String
  vlanValue : String
  id : String
  status : String
deriving DecidableEq

/-- HostPort. -/
structure HostPort where
  deploymentId : String
  hostName : String
  portName : String
  name : String
  id : String
  macAddress : String
  isLag : Bool
  parentHostPortId : String
  status : String
deriving DecidableEq

/-- HostPortAssociation. -/
structure HostPortAssociation where
  deploymentId : String
  hostPortId : String
  hostPortLabelId : String
  id : String
  status : String
deriving DecidableEq

/-- Vlan map key: `(type, value)` with type `value` or `untagged`. -/
structure Vlan where
  vlanType : String
  vlanValue : String
deriving DecidableEq

/-- A NIC as consumed by the engine: the `JSONNic` map with its `name`
and `mac-address` keys, which the callers always populate. -/
structure Nic where
  name : String
  macAddress : String
deriving DecidableEq

/-- The durable mirror (fssclient `Database`).  Outer maps are total
maps into `Option`; inner maps are association lists; `attachedPorts`
values are lists of single-entry maps, kept as pair lists. -/
structure Database where
  tenants : String → Option Tenant
  subnets : String → Option Subnet
  hostPortLabels : String → Option (List (Vlan × String))
  attachedLabels : String → Option (List (Vlan × String))
  hostPorts : String → Option (List (String × String))
  attachedPorts : String → Option (List (String × String))
  workloadMapping : String → Option String
  subnetMapping : String → Option (List (String × String))

/-- The empty mirror built in `NewFssClient`. -/
def initialDatabase : Database :=
  { tenants := fun _ => none
    subnets := fun _ => none
    hostPortLabels := fun _ => none
    attachedLabels := fun _ => none
    hostPorts := fun _ => none
    attachedPorts := fun _ => none
    workloadMapping := fun _ => none
    subnetMapping := fun _ => none }

/-- REST paths (fssclient constants). -/
def tenantPath : String := "/rest/connect/api/v1/plugins/tenants"

def subnetPath : String := "/rest/connect/api/v1/plugins/subnets"

def hostPortLabelPath : String := "/rest/connect/api/v1/plugins/hostportlabels"

def hostPortPath : String := "/rest/connect/api/v1/plugins/hostports"

def hostPortAssociationPath : String := "/rest/connect/api/v1/plugins/hostportlabelhostportassociations"

def subnetAssociationPath : String := "/rest/connect/api/v1/plugins/hostportlabelsubnetassociations"

/-- One server request issued by the engine. -/
inductive Request where
  | post (path : String)
  | del (path : String)
deriving DecidableEq

/-- Transport-level or status-level failure of an engine step (each
`badStatus` stands for the corresponding `fmt.Errorf` with the status,
`transport` for a non-nil error of the HTTP client). -/
inductive EngineErr where
  | transport
  | badStatus (status : Nat)
  | hostPortMissing
deriving DecidableEq

/-- The server and deployment as seen by one engine call: for every
POST, either a transport failure (`none`) or the status code plus the
request struct as updated by `json.Unmarshal` of the response body
(fields present in the response overwrite the request fields, the
others stay); for every DELETE, the status code or a transport
failure. -/
structure FssEnv where
  deploymentId : String
  postTenant : Tenant → Option (Nat × Tenant)
  postSubnet : Subnet → Option (Nat × Subnet)
  postHostPortLabel : HostPortLabel → Option (Nat × HostPortLabel)
  postSubnetAssociation : SubnetAssociation → Option (Nat × SubnetAssociation)
  postHostPort : HostPort → Option (Nat × HostPort)
  postHostPortAssociation : HostPortAssociation → Option (Nat × HostPortAssociation)
  del : String → Option Nat

/-- Result of `CreateSubnetInterface`: the mirror, the requests issued,
the two returned ids and the error. -/
structure CreateResult where
  db : Database
  trace : List Request
  fssSubnetId : String
  hostPortLabelId : String
  err : Option EngineErr

/-- Result of the other engine operations. -/
structure OpResult where
  db : Database
  trace : List Request
  err : Option EngineErr

/-! ### Fabric object engine (fssclient, lines 809-1200) -/

/-- The Vlan key computed from a vlanId (lines 874-880 and twins):
`0` maps to `("untagged","")`, anything else to `("value", itoa v)`. -/
def vlanOfId (vlanID : Int) : Vlan :=
  if vlanID = 0 then { vlanType := "untagged", vlanValue := "" }
  else { vlanType := "value", vlanValue := toString vlanID }

/-- The HostPortLabel POST body (lines 887-890). -/
def labelRequest (env : FssEnv) (fssSubnetID : String) (vlanID : Int) : HostPortLabel :=
  { deploymentId := env.deploymentId
    name := "label-" ++ fssSubnetID ++ "-" ++ toString vlanID
    id := ""
    status := "" }

/-- Lines 885-905: POST a new HostPortLabel, record it in
`hostPortLabels[fssSubnetID][vlan]` and return its server id. -/
def createLabelStep (env : FssEnv) (db : Database) (tr : List Request)
    (fssSubnetID : String) (vlanID : Int) : CreateResult :=
  let vlan := vlanOfId vlanID
  match env.postHostPortLabel (labelRequest env fssSubnetID vlanID) with
  | none => ⟨db, tr ++ [.post hostPortLabelPath], fssSubnetID, "", some .transport⟩
  | some (st, resp) =>
    if st ≠ 201 then ⟨db, tr ++ [.post hostPortLabelPath], fssSubnetID, "", some (.badStatus st)⟩
    else
      ⟨{ db with hostPortLabels := msetIn db.hostPortLabels fssSubnetID vlan resp.id },
        tr ++ [.post hostPortLabelPath], fssSubnetID, resp.id, none⟩

/-- Lines 844-872: POST a new Subnet, record it under the
server-assigned `fssSubnetId` with fresh empty label maps, then create
the label. -/
def subnetRequest (env : FssEnv) (db : Database)
    (fssWorkloadEvpnID fssSubnetName : String) : Subnet :=
  { deploymentId := env.deploymentId
    tenantId := (match db.tenants fssWorkloadEvpnID with | some t => t.id | none => "")
    fssSubnetId := ""
    fssSubnetName := fssSubnetName
    name := "subnet-" ++ fssSubnetName
    fssManaged := true
    id := ""
    status := "" }

def createSubnetStep (env : FssEnv) (db : Database) (tr : List Request)
    (fssWorkloadEvpnID fssSubnetName : String) (vlanID : Int) : CreateResult :=
  match env.postSubnet (subnetRequest env db fssWorkloadEvpnID fssSubnetName) with
  | none => ⟨db, tr ++ [.post subnetPath], "", "", some .transport⟩
  | some (st, resp) =>
    if st ≠ 201 then ⟨db, tr ++ [.post subnetPath], "", "", some (.badStatus st)⟩
    else
      let sid := resp.fssSubnetId
      let db1 : Database :=
        { db with subnetMapping := msetIn db.subnetMapping fssWorkloadEvpnID fssSubnetName sid
                  subnets := mset db.subnets sid resp
                  hostPortLabels := mset db.hostPortLabels sid []
                  attachedLabels := mset db.attachedLabels sid [] }
      createLabelStep env db1 (tr ++ [.post subnetPath]) sid vlanID

/-- Lines 816-841: POST a new Tenant, record it under the
server-assigned `fssWorkloadEvpnId`, then create subnet and label. -/
def tenantRequest (env : FssEnv) (fssWorkloadEvpnName : String) : Tenant :=
  { deploymentId := env.deploymentId
    fssWorkloadEvpnId := ""
    fssWorkloadEvpnName := fssWorkloadEvpnName
    name := "tenant-" ++ fssWorkloadEvpnName
    fssManaged := true
    id := ""
    status := "" }

def createTenantStep (env : FssEnv) (db : Database)
    (fssWorkloadEvpnName fssSubnetName : String) (vlanID : Int) : CreateResult :=
  match env.postTenant (tenantRequest env fssWorkloadEvpnName) with
  | none => ⟨db, [.post tenantPath], "", "", some .transport⟩
  | some (st, resp) =>
    if st ≠ 201 then ⟨db, [.post tenantPath], "", "", some (.badStatus st)⟩
    else
      let wid := resp.fssWorkloadEvpnId
      let db1 : Database :=
        { db with workloadMapping := mset db.workloadMapping fssWorkloadEvpnName wid
                  subnetMapping := mset db.subnetMapping wid []
                  tenants := mset db.tenants wid resp }
      createSubnetStep env db1 [.post tenantPath] wid fssSubnetName vlanID

/-- `CreateSubnetInterface` (fssclient lines 810-906).  The three
lookups are `ok1`, `ok2`, `ok3` of the Go code; when all hold the
cached pair is returned with no server request. -/
def CreateSubnetInterface (env : FssEnv) (db : Database)
    (fssWorkloadEvpnName fssSubnetName : String) (vlanID : Int) : CreateResult :=
  match db.workloadMapping fssWorkloadEvpnName with
  | none => createTenantStep env db fssWorkloadEvpnName fssSubnetName vlanID
  | some fssWorkloadEvpnID =>
    match alookup ((db.subnetMapping fssWorkloadEvpnID).getD []) fssSubnetName with
    | none => createSubnetStep env db [] fssWorkloadEvpnID fssSubnetName vlanID
    | some fssSubnetID =>
      match alookup ((db.hostPortLabels fssSubnetID).getD []) (vlanOfId vlanID) with
      | none => createLabelStep env db [] fssSubnetID vlanID
      | some hostPortLabelID => ⟨db, [], fssSubnetID, hostPortLabelID, none⟩

/-- `GetSubnetInterface` (fssclient lines 909-931), a pure lookup. -/
def GetSubnetInterface (db : Database)
    (fssWorkloadEvpnName fssSubnetName : String) (vlanID : Int) :
    String × String × String × Bool :=
  match db.workloadMapping fssWorkloadEvpnName with
  | none => ("", "", "", false)
  | some fssWorkloadEvpnID =>
    match alookup ((db.subnetMapping fssWorkloadEvpnID).getD []) fssSubnetName with
    | none => (fssWorkloadEvpnID, "", "", false)
    | some fssSubnetID =>
      match alookup ((db.hostPortLabels fssSubnetID).getD []) (vlanOfId vlanID) with
      | none => (fssWorkloadEvpnID, fssSubnetID, "", false)
      | some hostPortLabelID => (fssWorkloadEvpnID, fssSubnetID, hostPortLabelID, true)

/-- The SubnetAssociation POST body (lines 949-955). -/
def subnetAssocRequest (env : FssEnv) (db : Database) (fssSubnetID : String)
    (vlanID : Int) (hostPortLabelID : String) : SubnetAssociation :=
  { deploymentId := env.deploymentId
    hostPortLabelId := hostPortLabelID
    subnetId := (match db.subnets fssSubnetID with | some s => s.id | none => "")
    vlanType := (vlanOfId vlanID).vlanType
    vlanValue := (vlanOfId vlanID).vlanValue
    id := ""
    status := "" }

/-- `AttachSubnetInterface` (fssclient lines 934-971): POST a
SubnetAssociation unless this label is already the attached one, and
record the `hostPortLabelId` of the decoded response. -/
def AttachSubnetInterface (env : FssEnv) (db : Database)
    (fssSubnetID : String) (vlanID : Int) (hostPortLabelID : String) : OpResult :=
  let vlan := vlanOfId vlanID
  if alookup ((db.attachedLabels fssSubnetID).getD []) vlan = some hostPortLabelID then
    ⟨db, [], none⟩
  else
    match env.postSubnetAssociation (subnetAssocRequest env db fssSubnetID vlanID hostPortLabelID) with
    | none => ⟨db, [.post subnetAssociationPath], some .transport⟩
    | some (st, resp) =>
      if st ≠ 201 then ⟨db, [.post subnetAssociationPath], some (.badStatus st)⟩
      else
        ⟨{ db with attachedLabels := msetIn db.attachedLabels fssSubnetID vlan resp.hostPortLabelId },
          [.post subnetAssociationPath], none⟩

/-- Lines 1010-1042 of `DeleteSubnetInterface`: after the per-vlan
cleanup, on `DeleteDetach`, delete the Subnet when it has no more
attached labels, then the Tenant when it has no more subnets (DELETE
statuses of both are only logged). -/
def deleteDetachCollapse (env : FssEnv) (db : Database) (tr : List Request)
    (result : Option EngineErr) (fssWorkloadEvpnID fssSubnetID : String) : OpResult :=
  if ((db.attachedLabels fssSubnetID).getD []) = [] then
    let step :=
      match db.subnets fssSubnetID with
      | some subnet =>
        ({ db with subnetMapping := mdelIn db.subnetMapping fssWorkloadEvpnID subnet.fssSubnetName
                   subnets := mdel db.subnets fssSubnetID
                   hostPortLabels := mdel db.hostPortLabels fssSubnetID
                   attachedLabels := mdel db.attachedLabels fssSubnetID },
         tr ++ [Request.del (subnetPath ++ "/" ++ subnet.id)])
      | none => (db, tr)
    let db2 := step.1
    let tr2 := step.2
    if ((db2.subnetMapping fssWorkloadEvpnID).getD []) = [] then
      match db2.tenants fssWorkloadEvpnID with
      | some tenant =>
        ⟨{ db2 with workloadMapping := mdel db2.workloadMapping tenant.fssWorkloadEvpnName
                    subnetMapping := mdel db2.subnetMapping fssWorkloadEvpnID
                    tenants := mdel db2.tenants fssWorkloadEvpnID },
          tr2 ++ [Request.del (tenantPath ++ "/" ++ tenant.id)], result⟩
      | none => ⟨db2, tr2, result⟩
    else ⟨db2, tr2, result⟩
  else ⟨db, tr, result⟩

/-- `DeleteSubnetInterface` (fssclient lines 974-1044): DELETE the
HostPortLabel when it is the attached one (a transport failure returns
at once; a status other than 204 is remembered as the result), then
always do the local cleanup, then the upward collapse on
`DeleteDetach`. -/
def DeleteSubnetInterface (env : FssEnv) (db : Database)
    (fssWorkloadEvpnID fssSubnetID : String) (vlanID : Int)
    (hostPortLabelID : String) (requestType : NadAction) : OpResult :=
  let vlan := vlanOfId vlanID
  let u := hostPortLabelPath ++ "/" ++ hostPortLabelID
  let step1 : Option (List Request × Option EngineErr) :=
    if alookup ((db.attachedLabels fssSubnetID).getD []) vlan = some hostPortLabelID then
      match env.del u with
      | none => none
      | some st => some ([.del u], if st ≠ 204 then some (.badStatus st) else none)
    else some ([], none)
  match step1 with
  | none => ⟨db, [.del u], some .transport⟩
  | some (tr1, result) =>
    let db1 : Database :=
      { db with hostPortLabels := mdelIn db.hostPortLabels fssSubnetID vlan
                attachedLabels := mdelIn db.attachedLabels fssSubnetID vlan
                attachedPorts := mdel db.attachedPorts hostPortLabelID }
    if requestType = NadAction.deleteDetach then
      deleteDetachCollapse env db1 tr1 result fssWorkloadEvpnID fssSubnetID
    else ⟨db1, tr1, result⟩

/-- `GetHostPort` (fssclient lines 1082-1094): when the node has no
entry, an empty inner map is inserted before the (failing) port
lookup. -/
def GetHostPort (db : Database) (node port : String) : Database × String × Bool :=
  match db.hostPorts node with
  | none => ({ db with hostPorts := mset db.hostPorts node [] }, "", false)
  | some hostPorts =>
    match alookup hostPorts port with
    | none => (db, "", false)
    | some hostPortID => (db, hostPortID, true)

/-- `CreateHostPort` (fssclient lines 1047-1079): idempotent via
`GetHostPort`, else POST a HostPort and record the server id. -/
def CreateHostPort (env : FssEnv) (db : Database) (node : String) (port : Nic)
    (isLag : Bool) (parentHostPortID : String) :
    Database × List Request × String × Option EngineErr :=
  let g := GetHostPort db node port.name
  let db1 := g.1
  if g.2.2 then (db1, [], g.2.1, none)
  else
    let hostPort : HostPort :=
      { deploymentId := env.deploymentId
        hostName := node
        portName := port.name
        name := ""
        id := ""
        macAddress := port.macAddress
        isLag := isLag
        parentHostPortId := parentHostPortID
        status := "" }
    match env.postHostPort hostPort with
    | none => (db1, [.post hostPortPath], "", some .transport)
    | some (st, resp) =>
      if st ≠ 201 then (db1, [.post hostPortPath], "", some (.badStatus st))
      else
        ({ db1 with hostPorts := msetIn db1.hostPorts node port.name resp.id },
          [.post hostPortPath], resp.id, none)

/-- `AttachHostPort` (fssclient lines 1097-1135): POST a
HostPortAssociation unless `attachedPorts[label]` already holds this
`hostPortId`; the new association is appended. -/
def AttachHostPort (env : FssEnv) (db : Database) (hostPortLabelID node : String)
    (port : Nic) : OpResult :=
  let g := GetHostPort db node port.name
  let db1 := g.1
  let hostPortID := g.2.1
  if g.2.2 = false then ⟨db1, [], some .hostPortMissing⟩
  else if ((db1.attachedPorts hostPortLabelID).getD []).any (fun p => p.1 == hostPortID) then
    ⟨db1, [], none⟩
  else
    let hostPortAssociation : HostPortAssociation :=
      { deploymentId := env.deploymentId
        hostPortId := hostPortID
        hostPortLabelId := hostPortLabelID
        id := ""
        status := "" }
    match env.postHostPortAssociation hostPortAssociation with
    | none => ⟨db1, [.post hostPortAssociationPath], some .transport⟩
    | some (st, resp) =>
      if st ≠ 201 then ⟨db1, [.post hostPortAssociationPath], some (.badStatus st)⟩
      else
        let appended := ((db1.attachedPorts hostPortLabelID).getD []) ++ [(hostPortID, resp.id)]
        ⟨{ db1 with attachedPorts := mset db1.attachedPorts hostPortLabelID appended },
          [.post hostPortAssociationPath], none⟩

/-- First association for a host port in an `attachedPorts` entry, with
the remaining list. -/
def detachFindAssoc (hostPortID : String) :
    List (String × String) → Option (String × List (String × String))
  | [] => none
  | p :: t =>
    if p.1 = hostPortID then some (p.2, t)
    else
      match detachFindAssoc hostPortID t with
      | none => none
      | some (a, rest) => some (a, p :: rest)

/-- `DetachHostPort` (fssclient lines 1138-1162): silent when the
mirror has no record; else DELETE the association and remove it
locally even on failure.  The Go loop removes entries from the slice
it ranges over; under mirror invariant 4 (at most one association per
host port and label) exactly the first match is deleted, which is what
is modelled. -/
def DetachHostPort (env : FssEnv) (db : Database) (hostPortLabelID node : String)
    (port : Nic) : OpResult :=
  match alookup ((db.hostPorts node).getD []) port.name with
  | none => ⟨db, [], none⟩
  | some hostPortID =>
    match detachFindAssoc hostPortID ((db.attachedPorts hostPortLabelID).getD []) with
    | none => ⟨db, [], none⟩
    | some (hostPortAssociationID, rest) =>
      let u := hostPortAssociationPath ++ "/" ++ hostPortAssociationID
      let db1 : Database :=
        { db with attachedPorts := mset db.attachedPorts hostPortLabelID rest }
      match env.del u with
      | none => ⟨db1, [.del u], some .transport⟩
      | some st => ⟨db1, [.del u], if st ≠ 204 then some (.badStatus st) else none⟩

/-! ### Operation sequences and the attached-label invariant -/

/-- One engine operation with its arguments. -/
inductive Op where
  | createSubnetInterface (w s : String) (vlanID : Int)
  | attachSubnetInterface (sid : String) (vlanID : Int) (labelId : String)
  | deleteSubnetInterface (wid sid : String) (vlanID : Int) (labelId : String) (rt : NadAction)
  | createHostPort (node : String) (port : Nic) (isLag : Bool) (parent : String)
  | attachHostPort (labelId node : String) (port : Nic)
  | detachHostPort (labelId node : String) (port : Nic)

/-- Run one operation, keeping the mirror it leaves behind and whether
it succeeded (nil error). -/
def runOp (env : FssEnv) (db : Database) : Op → Database × Bool
  | .createSubnetInterface w s v =>
    let r := CreateSubnetInterface env db w s v
    (r.db, r.err.isNone)
  | .attachSubnetInterface sid v l =>
    let r := AttachSubnetInterface env db sid v l
    (r.db, r.err.isNone)
  | .deleteSubnetInterface wid sid v l rt =>
    let r := DeleteSubnetInterface env db wid sid v l rt
    (r.db, r.err.isNone)
  | .createHostPort node port isLag parent =>
    let r := CreateHostPort env db node port isLag parent
    (r.1, r.2.2.2.isNone)
  | .attachHostPort l node port =>
    let r := AttachHostPort env db l node port
    (r.db, r.err.isNone)
  | .detachHostPort l node port =>
    let r := DetachHostPort env db l node port
    (r.db, r.err.isNone)

/-- Run a sequence of operations, all of which must succeed for the
boolean to hold. -/
def runOps (env : FssEnv) (db : Database) : List Op → Database × Bool
  | [] => (db, true)
  | op :: rest =>
    let r := runOp env db op
    let r2 := runOps env r.1 rest
    (r2.1, r.2 && r2.2)

/-- Invariant 3 of the specification data model: every attached label
is the label recorded for its subnet and vlan. -/
def AttachedSubset (db : Database) : Prop :=
  ∀ sid v L, alookup ((db.attachedLabels sid).getD []) v = some L →
    alookup ((db.hostPortLabels sid).getD []) v = some L

/-- The condition under which the façade invokes
`AttachSubnetInterface`: the label argument is the one the mirror
records for this subnet and vlan (it was just returned by
`CreateSubnetInterface` or `GetSubnetInterface`).  The other
operations are unconstrained. -/
def FacadeCalls (env : FssEnv) : Database → List Op → Prop
  | _, [] => True
  | db, op :: rest =>
    (match op with
     | .attachSubnetInterface sid v l =>
       alookup ((db.hostPortLabels sid).getD []) (vlanOfId v) = some l
     | _ => True) ∧ FacadeCalls env (runOp env db op).1 rest

/-- The server contract the engine relies on for subnet associations:
the decoded response of a successful POST carries the request
`hostPortLabelId` (the FSS server returns the created object; a field
absent from the response keeps the request value after
`json.Unmarshal`). -/
def EchoesLabelId (env : FssEnv) : Prop :=
  ∀ req st resp, env.postSubnetAssociation req = some (st, resp) →
    resp.hostPortLabelId = req.hostPortLabelId

/-! ### Concrete servers, NADs and mirrors used in closed statements -/

/-- A healthy server: every POST answers 201 with the request enriched
by fixed server-assigned ids, every DELETE answers 204. -/
def serverEnv : FssEnv :=
  { deploymentId := "D1"
    postTenant := fun t => some (201, { t with fssWorkloadEvpnId := "W1", id := "T1" })
    postSubnet := fun s => some (201, { s with fssSubnetId := "S1", id := "SS1" })
    postHostPortLabel := fun l => some (201, { l with id := "L1" })
    postSubnetAssociation := fun a => some (201, { a with id := "A1" })
    postHostPort := fun p => some (201, { p with id := "P1" })
    postHostPortAssociation := fun a => some (201, { a with id := "HA1" })
    del := fun _ => some 204 }

/-- The same server with failing DELETEs. -/
def serverEnvBadDelete : FssEnv := { serverEnv with del := fun _ => some 500 }

/-- An eligible ipvlan NAD with the given nodeSelector annotation. -/
def nadIpvlan (ns : String) : Nad :=
  { netConf := { type := "ipvlan", master := "tenant-bond", vlan := 100, vlanTrunk := "" }
    annotations := [(NodeSelectorKey, ns), (ExtProjectNameKey, "p"), (ExtNetworkNameKey, "n")]
    overlayAnno := .absent }

/-- An sriov overlay NAD with the given vlan trunk, overlay ranges and
nodeSelector annotation. -/
def nadOverlay (trunk : String) (rs : List String) (ns : String) : Nad :=
  { netConf := { type := "sriov", master := "", vlan := 0, vlanTrunk := trunk }
    annotations := [(NodeSelectorKey, ns), (SriovResourceKey, "pool1")]
    overlayAnno := .parsed (rs.map (fun r =>
      { extProjectName := some "p", extNetworkName := some "n", vlanRange := some r })) }

/-- An ineligible sriov NAD (no nodeSelector annotation) with vlan
trunk 100. -/
def nadNoSelector : Nad :=
  { netConf := { type := "sriov", master := "", vlan := 0, vlanTrunk := "100" }
    annotations := [(SriovResourceKey, "pool1")]
    overlayAnno := .absent }

/-- A mirror holding one tenant, one subnet and one attached label,
built by the engine itself against `serverEnv`. -/
def oneLabelDb : Database :=
  (runOps serverEnv initialDatabase
    [.createSubnetInterface "projA" "subX" 100, .attachSubnetInterface "S1" 100 "L1"]).1

/-- The subnet stored in `oneLabelDb`. -/
def witnessSubnet : Subnet :=
  { deploymentId := "D1", tenantId := "T1", fssSubnetId := "S1", fssSubnetName := "subX",
    name := "subnet-subX", fssManaged := true, id := "SS1", status := "" }

/-- The tenant stored in `oneLabelDb`. -/
def witnessTenant : Tenant :=
  { deploymentId := "D1", fssWorkloadEvpnId := "W1", fssWorkloadEvpnName := "projA",
    name := "tenant-projA", fssManaged := true, id := "T1", status := "" }

/-! ## Map and association list lemmas -/

@[simp] theorem alookup_nil {κ ν : Type} [DecidableEq κ] (k : κ) :
    alookup ([] : List (κ × ν)) k = none := rfl

theorem alookup_cons {κ ν : Type} [DecidableEq κ] (p : κ × ν) (t : List (κ × ν)) (k : κ) :
    alookup (p :: t) k = if p.1 = k then some p.2 else alookup t k := rfl

@[simp] theorem alookup_adel_self {κ ν : Type} [DecidableEq κ] (l : List (κ × ν)) (k : κ) :
    alookup (adel l k) k = none := by
  induction l with
  | nil => rfl
  | cons p t ih =>
    by_cases h : p.1 = k
    · simpa [adel, h] using ih
    · simpa [adel, alookup_cons, h] using ih

theorem adel_cons {κ ν : Type} [DecidableEq κ] (p : κ × ν) (t : List (κ × ν)) (k : κ) :
    adel (p :: t) k = if p.1 = k then adel t k else p :: adel t k := by
  by_cases hp : p.1 = k <;> simp [adel, hp]

theorem alookup_adel_ne {κ ν : Type} [DecidableEq κ] {l : List (κ × ν)} {x k : κ}
    (h : x ≠ k) : alookup (adel l k) x = alookup l x := by
  induction l with
  | nil => rfl
  | cons p t ih =>
    by_cases hp : p.1 = k
    · have hpx : p.1 ≠ x := by rw [hp]; exact fun hk => h hk.symm
      rw [adel_cons, if_pos hp, ih, alookup_cons, if_neg hpx]
    · rw [adel_cons, if_neg hp, alookup_cons, alookup_cons, ih]

@[simp] theorem alookup_aset_self {κ ν : Type} [DecidableEq κ] (l : List (κ × ν)) (k : κ) (v : ν) :
    alookup (aset l k v) k = some v := by
  simp [aset, alookup_cons]

theorem alookup_aset_ne {κ ν : Type} [DecidableEq κ] {l : List (κ × ν)} {x k : κ} (v : ν)
    (h : x ≠ k) : alookup (aset l k v) x = alookup l x := by
  have : k ≠ x := fun hk => h hk.symm
  simp [aset, alookup_cons, this, alookup_adel_ne h]

@[simp] theorem mset_self {β : Type} (m : String → Option β) (k : String) (v : β) :
    mset m k v k = some v := by simp [mset]

theorem mset_ne {β : Type} (m : String → Option β) {x k : String} (v : β) (h : x ≠ k) :
    mset m k v x = m x := by simp [mset, h]

@[simp] theorem mdel_self {β : Type} (m : String → Option β) (k : String) :
    mdel m k k = none := by simp [mdel]

theorem mdel_ne {β : Type} (m : String → Option β) {x k : String} (h : x ≠ k) :
    mdel m k x = m x := by simp [mdel, h]

/-! ## Parser lemmas -/

theorem splitOnChar_ne_nil (c : Char) (l : List Char) : splitOnChar c l ≠ [] := by
  cases l with
  | nil => simp [splitOnChar]
  | cons x xs =>
    simp only [splitOnChar]
    split
    · simp
    · split <;> simp

theorem splitOnChar_not_mem {c : Char} {l : List Char} (h : c ∉ l) :
    splitOnChar c l = [l] := by
  induction l with
  | nil => rfl
  | cons x xs ih =>
    have hx : x ≠ c := fun hxc => h (hxc ▸ List.mem_cons_self x xs)
    have hxs : c ∉ xs := fun hm => h (List.mem_cons_of_mem _ hm)
    simp only [splitOnChar, if_neg hx, ih hxs]

theorem splitOnChar_cons (c x : Char) (xs : List Char) :
    splitOnChar c (x :: xs) =
      if x = c then [] :: splitOnChar c xs
      else
        match splitOnChar c xs with
        | [] => [[x]]
        | y :: ys => (x :: y) :: ys := rfl

theorem splitOnChar_append_sep (c : Char) (a b : List Char) :
    splitOnChar c (a ++ c :: b) = splitOnChar c a ++ splitOnChar c b := by
  induction a with
  | nil => simp [splitOnChar]
  | cons x xs ih =>
    by_cases hx : x = c
    · subst hx
      rw [List.cons_append, splitOnChar_cons, if_pos rfl, ih, splitOnChar_cons, if_pos rfl,
        List.cons_append]
    · rcases hxe : splitOnChar c xs with _ | ⟨y, ys⟩
      · exact absurd hxe (splitOnChar_ne_nil c xs)
      · rw [List.cons_append, splitOnChar_cons, if_neg hx, ih, hxe, List.cons_append,
          splitOnChar_cons, if_neg hx, hxe, List.cons_append]

theorem getVlanIdsLoop_cons (v : List Char) (rest : List (List Char)) (acc : List Nat) :
    getVlanIdsLoop (v :: rest) acc =
      if v.contains '-' then
        match splitOnChar '-' v with
        | [n0, n1] =>
          if goAtoi n0 = 0 ∨ goAtoi n1 < goAtoi n0 then (acc, true)
          else getVlanIdsLoop rest (acc ++ List.range' (goAtoi n0) (goAtoi n1 - goAtoi n0 + 1))
        | _ => (acc, true)
      else getVlanIdsLoop rest (acc ++ [goAtoi v]) := rfl

theorem getVlanIdsLoop_acc (l : List (List Char)) (acc : List Nat) :
    getVlanIdsLoop l acc =
      (acc ++ (getVlanIdsLoop l []).1, (getVlanIdsLoop l []).2) := by
  induction l generalizing acc with
  | nil => simp [getVlanIdsLoop]
  | cons v rest ih =>
    cases hc : v.contains '-' with
    | false =>
      simp only [getVlanIdsLoop, hc, Bool.false_eq_true, if_false]
      rw [ih (acc ++ [goAtoi v]), ih ([] ++ [goAtoi v])]
      simp
    | true =>
      simp only [getVlanIdsLoop, hc, if_true]
      rcases hs : splitOnChar '-' v with _ | ⟨n0, _ | ⟨n1, _ | ⟨n2, t⟩⟩⟩ <;> simp only []
      · simp
      · simp
      · by_cases hcond : goAtoi n0 = 0 ∨ goAtoi n1 < goAtoi n0
        · simp [hcond]
        · simp only [if_neg hcond]
          rw [ih (acc ++ List.range' (goAtoi n0) (goAtoi n1 - goAtoi n0 + 1)),
            ih ([] ++ List.range' (goAtoi n0) (goAtoi n1 - goAtoi n0 + 1))]
          simp
      · simp

theorem getVlanIdsLoop_err_of_mem {v : List Char} {l : List (List Char)}
    (hv : v ∈ l) (hbad : badRangeElem v = true) (acc : List Nat) :
    (getVlanIdsLoop l acc).2 = true := by
  induction l generalizing acc with
  | nil => cases hv
  | cons a rest ih =>
    rcases List.mem_cons.mp hv with rfl | hmem
    · unfold badRangeElem at hbad
      cases hc : v.contains '-' with
      | false => rw [hc] at hbad; simp at hbad
      | true =>
        rw [hc, Bool.true_and] at hbad
        simp only [getVlanIdsLoop, hc, if_true]
        rcases hs : splitOnChar '-' v with _ | ⟨n0, _ | ⟨n1, _ | ⟨n2, t⟩⟩⟩
        · rfl
        · rfl
        · rw [hs] at hbad
          have hcond : goAtoi n0 = 0 ∨ goAtoi n1 < goAtoi n0 := by simpa using hbad
          simp [hcond]
        · rfl
    · cases hc : a.contains '-' with
      | false => simp only [getVlanIdsLoop, hc, Bool.false_eq_true, if_false]; exact ih hmem _
      | true =>
        simp only [getVlanIdsLoop, hc, if_true]
        rcases hs : splitOnChar '-' a with _ | ⟨n0, _ | ⟨n1, _ | ⟨n2, t⟩⟩⟩
        · rfl
        · rfl
        · by_cases hcond : goAtoi n0 = 0 ∨ goAtoi n1 < goAtoi n0
          · simp [hcond]
          · simp only [if_neg hcond]; exact ih hmem _
        · rfl

theorem GetVlanIdsL_charset {l : List Char} (h : (GetVlanIdsL l).2 = false) :
    l.all vlanCharOk = true := by
  by_cases hall : l.all vlanCharOk = true
  · exact hall
  · exact absurd h (by simp [GetVlanIdsL, hall])

theorem getVlanIdsLoop_append (l1 l2 : List (List Char))
    (h : (getVlanIdsLoop l1 []).2 = false) :
    getVlanIdsLoop (l1 ++ l2) [] =
      ((getVlanIdsLoop l1 []).1 ++ (getVlanIdsLoop l2 []).1, (getVlanIdsLoop l2 []).2) := by
  induction l1 with
  | nil => simp [getVlanIdsLoop]
  | cons v rest ih =>
    cases hc : v.contains '-' with
    | false =>
      simp only [getVlanIdsLoop, hc, Bool.false_eq_true, if_false, List.append_eq] at h ⊢
      rw [getVlanIdsLoop_acc rest ([] ++ [goAtoi v])] at h
      rw [getVlanIdsLoop_acc (rest ++ l2) ([] ++ [goAtoi v]),
        getVlanIdsLoop_acc rest ([] ++ [goAtoi v]), ih (by simpa using h)]
      simp
    | true =>
      simp only [getVlanIdsLoop, hc, if_true, List.append_eq] at h ⊢
      rcases hs : splitOnChar '-' v with _ | ⟨n0, _ | ⟨n1, _ | ⟨n2, t⟩⟩⟩ <;>
        simp only [hs] at h ⊢
      · simp at h
      · simp at h
      · by_cases hcond : goAtoi n0 = 0 ∨ goAtoi n1 < goAtoi n0
        · simp [hcond] at h
        · simp only [if_neg hcond] at h ⊢
          rw [getVlanIdsLoop_acc rest
            ([] ++ List.range' (goAtoi n0) (goAtoi n1 - goAtoi n0 + 1))] at h
          rw [getVlanIdsLoop_acc (rest ++ l2)
              ([] ++ List.range' (goAtoi n0) (goAtoi n1 - goAtoi n0 + 1)),
            getVlanIdsLoop_acc rest
              ([] ++ List.range' (goAtoi n0) (goAtoi n1 - goAtoi n0 + 1)),
            ih (by simpa using h)]
          simp
      · simp at h

theorem char_contains_iff {c : Char} {l : List Char} : l.contains c = true ↔ c ∈ l := by
  induction l with
  | nil => simp
  | cons x xs ih =>
    show (c == x || xs.contains c) = true ↔ _
    rw [Bool.or_eq_true, beq_iff_eq, ih, List.mem_cons]

theorem char_contains_false {c : Char} {l : List Char} (h : c ∉ l) :
    l.contains c = false := by
  cases hc : l.contains c
  · rfl
  · exact absurd (char_contains_iff.mp hc) h

theorem digit_notin {l : List Char} (h : l.all Char.isDigit = true) :
    '-' ∉ l ∧ ',' ∉ l := by
  constructor
  · intro hm
    exact absurd (List.all_eq_true.mp h _ hm) (by decide)
  · intro hm
    exact absurd (List.all_eq_true.mp h _ hm) (by decide)

theorem all_digit_charOk {l : List Char} (h : l.all Char.isDigit = true) :
    l.all vlanCharOk = true := by
  refine List.all_eq_true.mpr fun c hc => ?_
  have := List.all_eq_true.mp h c hc
  simp [vlanCharOk, this]

/-! ## Claim C5: accepted and rejected inputs of `GetVlanIds` -/

/-- C5: `GetVlanIds` maps "50,51,700-710" to
[50,51,700,...,710]; it errors on every input with a character outside
the charset of the regular expression, on every comma-separated element
containing a hyphen that does not split into exactly two components,
and on every range whose parsed lower bound is zero or exceeds its
parsed upper bound; the single element "0" is accepted and yields vlan
0 (untagged). -/
theorem getVlanIds_spec (s : String) (v : List Char) :
    GetVlanIds "50,51,700-710" =
      ([50, 51, 700, 701, 702, 703, 704, 705, 706, 707, 708, 709, 710], false) ∧
    (s.toList.all vlanCharOk = false → GetVlanIds s = ([], true)) ∧
    (v ∈ splitOnChar ',' s.toList → v.contains '-' = true →
      (splitOnChar '-' v).length ≠ 2 → (GetVlanIds s).2 = true) ∧
    (∀ n0 n1, v ∈ splitOnChar ',' s.toList → splitOnChar '-' v = [n0, n1] →
      (goAtoi n0 = 0 ∨ goAtoi n1 < goAtoi n0) → (GetVlanIds s).2 = true) ∧
    GetVlanIds "0" = ([0], false) := by
  refine ⟨by decide, ?_, ?_, ?_, by decide⟩
  · intro h
    show GetVlanIdsL s.toList = _
    unfold GetVlanIdsL
    rw [if_neg (by rw [h]; exact Bool.false_ne_true)]
  · intro hv hcon hlen
    have hbad : badRangeElem v = true := by
      unfold badRangeElem
      rw [hcon, Bool.true_and]
      rcases hsp : splitOnChar '-' v with _ | ⟨n0, _ | ⟨n1, _ | ⟨n2, t⟩⟩⟩
      · rfl
      · rfl
      · rw [hsp] at hlen; simp at hlen
      · rfl
    show (GetVlanIdsL s.toList).2 = true
    unfold GetVlanIdsL
    cases hall : s.toList.all vlanCharOk
    · rw [if_neg (by simp)]
    · rw [if_pos rfl]
      exact getVlanIdsLoop_err_of_mem hv hbad []
  · intro n0 n1 hv hsp hcond
    have hcon : v.contains '-' = true := by
      by_contra hc
      have hm : '-' ∉ v := fun hmem => hc (char_contains_iff.mpr hmem)
      rw [splitOnChar_not_mem hm] at hsp
      simp at hsp
    have hbad : badRangeElem v = true := by
      unfold badRangeElem
      rw [hcon, Bool.true_and, hsp]
      exact decide_eq_true hcond
    show (GetVlanIdsL s.toList).2 = true
    unfold GetVlanIdsL
    cases hall : s.toList.all vlanCharOk
    · rw [if_neg (by simp)]
    · rw [if_pos rfl]
      exact getVlanIdsLoop_err_of_mem hv hbad []

/-- Witness for C5 at concrete inputs. -/
theorem getVlanIds_spec_witness :
    ("a".toList.all vlanCharOk = false ∧ GetVlanIds "a" = ([], true)) ∧
    ((['5', '-', '6', '-', '7'] ∈ splitOnChar ',' "5-6-7".toList ∧
        (['5', '-', '6', '-', '7'] : List Char).contains '-' = true ∧
        (splitOnChar '-' ['5', '-', '6', '-', '7']).length ≠ 2) ∧
      (GetVlanIds "5-6-7").2 = true) ∧
    ((['0', '-', '1', '0'] ∈ splitOnChar ',' "0-10,5".toList ∧
        splitOnChar '-' ['0', '-', '1', '0'] = [['0'], ['1', '0']] ∧ goAtoi ['0'] = 0) ∧
      (GetVlanIds "0-10,5").2 = true) := by
  refine ⟨⟨by decide, (getVlanIds_spec "a" []).2.1 (by decide)⟩,
    ⟨⟨by decide, by decide, by decide⟩,
      (getVlanIds_spec "5-6-7" ['5', '-', '6', '-', '7']).2.2.1 (by decide) (by decide)
        (by decide)⟩,
    ⟨⟨by decide, by decide, by decide⟩,
      (getVlanIds_spec "0-10,5" ['0', '-', '1', '0']).2.2.2.1 ['0'] ['1', '0'] (by decide)
        (by decide) (Or.inl (by decide))⟩⟩

/-! ## Claim C9: no upper vlan bound, and the empty input -/

/-- C9: `GetVlanIds` enforces no upper bound on vlan values: every
single decimal element (up to the 64-bit clamp of `strconv.Atoi`)
succeeds and yields its numeric value, every well-formed range succeeds
whatever its upper bound, and the empty string succeeds with [0], the
untagged vlan. -/
theorem getVlanIds_no_upper_bound (s : String) (n0 n1 : List Char) :
    (s.toList ≠ [] → s.toList.all Char.isDigit = true → digitsVal s.toList < 2 ^ 63 →
      GetVlanIds s = ([digitsVal s.toList], false)) ∧
    (s.toList = n0 ++ '-' :: n1 → n0.all Char.isDigit = true → n1.all Char.isDigit = true →
      n0 ≠ [] → n1 ≠ [] → digitsVal n0 < 2 ^ 63 → digitsVal n1 < 2 ^ 63 →
      0 < digitsVal n0 → digitsVal n0 ≤ digitsVal n1 →
      GetVlanIds s = (List.range' (digitsVal n0) (digitsVal n1 - digitsVal n0 + 1), false)) ∧
    GetVlanIds "" = ([0], false) := by
  refine ⟨?_, ?_, by decide⟩
  · intro hne hdig hlt
    have hall : s.toList.all vlanCharOk = true := all_digit_charOk hdig
    have hsplit : splitOnChar ',' s.toList = [s.toList] :=
      splitOnChar_not_mem (digit_notin hdig).2
    have hcont : s.toList.contains '-' = false := char_contains_false (digit_notin hdig).1
    have hato : goAtoi s.toList = digitsVal s.toList := by
      rw [goAtoi, if_pos ⟨hne, hdig⟩]
      exact min_eq_left (by omega)
    show GetVlanIdsL s.toList = _
    unfold GetVlanIdsL
    rw [if_pos hall, hsplit, getVlanIdsLoop_cons,
      if_neg (by rw [hcont]; exact Bool.false_ne_true), hato]
    simp [getVlanIdsLoop]
  · intro hs hd0 hd1 hne0 hne1 hlt0 hlt1 hpos hle
    have hall : (n0 ++ '-' :: n1).all vlanCharOk = true := by
      rw [List.all_append, Bool.and_eq_true]
      refine ⟨all_digit_charOk hd0, ?_⟩
      rw [List.all_cons, Bool.and_eq_true]
      exact ⟨by decide, all_digit_charOk hd1⟩
    have hnc : ',' ∉ n0 ++ '-' :: n1 := by
      intro hm
      rcases List.mem_append.mp hm with hm | hm
      · exact (digit_notin hd0).2 hm
      · rcases List.mem_cons.mp hm with hm | hm
        · cases hm
        · exact (digit_notin hd1).2 hm
    have hsplitc : splitOnChar ',' (n0 ++ '-' :: n1) = [n0 ++ '-' :: n1] :=
      splitOnChar_not_mem hnc
    have hcont : (n0 ++ '-' :: n1).contains '-' = true :=
      char_contains_iff.mpr (List.mem_append.mpr (Or.inr (List.mem_cons_self _ _)))
    have hsplit2 : splitOnChar '-' (n0 ++ '-' :: n1) = [n0, n1] := by
      rw [splitOnChar_append_sep, splitOnChar_not_mem (digit_notin hd0).1,
        splitOnChar_not_mem (digit_notin hd1).1]
      rfl
    have hato0 : goAtoi n0 = digitsVal n0 := by
      rw [goAtoi, if_pos ⟨hne0, hd0⟩]; exact min_eq_left (by omega)
    have hato1 : goAtoi n1 = digitsVal n1 := by
      rw [goAtoi, if_pos ⟨hne1, hd1⟩]; exact min_eq_left (by omega)
    have hcond : ¬(goAtoi n0 = 0 ∨ goAtoi n1 < goAtoi n0) := by
      rw [hato0, hato1]; omega
    show GetVlanIdsL s.toList = _
    rw [hs]
    unfold GetVlanIdsL
    rw [if_pos hall, hsplitc, getVlanIdsLoop_cons, if_pos hcont]
    simp only [hsplit2]
    rw [if_neg hcond, hato0, hato1]
    simp [getVlanIdsLoop]

/-- Witness for C9: a five-digit vlan, a range reaching 5000, and the
empty string. -/
theorem getVlanIds_no_upper_bound_witness :
    (GetVlanIds "99999" = ([99999], false) ∧ 4095 < (99999 : Nat)) ∧
    (GetVlanIds "4000-5000" = (List.range' 4000 1001, false) ∧ 4095 < (5000 : Nat)) ∧
    GetVlanIds "" = ([0], false) := by
  have h1 := (getVlanIds_no_upper_bound "99999" [] []).1 (by decide) (by decide) (by decide)
  have h2 := (getVlanIds_no_upper_bound "4000-5000" ['4', '0', '0', '0']
    ['5', '0', '0', '0']).2.1 (by decide) (by decide) (by decide) (by decide) (by decide)
    (by decide) (by decide) (by decide) (by decide)
  refine ⟨⟨?_, by norm_num⟩, ⟨?_, by norm_num⟩,
    (getVlanIds_no_upper_bound "" [] []).2.2⟩
  · have e : digitsVal "99999".toList = 99999 := by decide
    rw [e] at h1
    exact h1
  · have e0 : digitsVal ['4', '0', '0', '0'] = 4000 := by decide
    have e1 : digitsVal ['5', '0', '0', '0'] = 5000 := by decide
    rw [e0, e1] at h2
    have e2 : (5000 : Nat) - 4000 + 1 = 1001 := by norm_num
    rw [e2] at h2
    exact h2

/-! ## Claim C6: overlay vlan comparison -/

theorem GetVlanIdsL_ok {l : List Char} (h : (GetVlanIdsL l).2 = false) :
    l.all vlanCharOk = true ∧
      getVlanIdsLoop (splitOnChar ',' l) [] = ((GetVlanIdsL l).1, false) := by
  have hall := GetVlanIdsL_charset h
  have e : GetVlanIdsL l = getVlanIdsLoop (splitOnChar ',' l) [] := by
    unfold GetVlanIdsL
    rw [if_pos hall]
  refine ⟨hall, ?_⟩
  rw [← e, ← h]

theorem GetVlanIdsL_append (a b : List Char) (ha : (GetVlanIdsL a).2 = false)
    (hb : (GetVlanIdsL b).2 = false) :
    GetVlanIdsL (a ++ ',' :: b) = ((GetVlanIdsL a).1 ++ (GetVlanIdsL b).1, false) := by
  obtain ⟨hall_a, hloop_a⟩ := GetVlanIdsL_ok ha
  obtain ⟨hall_b, hloop_b⟩ := GetVlanIdsL_ok hb
  have hallab : (a ++ ',' :: b).all vlanCharOk = true := by
    rw [List.all_append, Bool.and_eq_true]
    refine ⟨hall_a, ?_⟩
    rw [List.all_cons, Bool.and_eq_true]
    exact ⟨by decide, hall_b⟩
  have e2 : GetVlanIdsL (a ++ ',' :: b) = getVlanIdsLoop (splitOnChar ',' (a ++ ',' :: b)) [] := by
    unfold GetVlanIdsL
    rw [if_pos hallab]
  rw [e2, splitOnChar_append_sep, getVlanIdsLoop_append _ _ (by rw [hloop_a]), hloop_a, hloop_b]

theorem GetVlanIdsL_join (rs : List (List Char)) (hne : rs ≠ [])
    (h : ∀ r ∈ rs, (GetVlanIdsL r).2 = false) :
    GetVlanIdsL (joinComma rs) =
      ((rs.map (fun r => (GetVlanIdsL r).1)).flatten, false) := by
  induction rs with
  | nil => exact absurd rfl hne
  | cons r rs ih =>
    cases rs with
    | nil =>
      have hr := h r (List.mem_cons_self _ _)
      show GetVlanIdsL r = _
      simp only [List.map_cons, List.map_nil, List.flatten_cons, List.flatten_nil,
        List.append_nil]
      exact Prod.ext rfl hr
    | cons r2 rs2 =>
      have hr := h r (List.mem_cons_self _ _)
      have hrest : ∀ x ∈ r2 :: rs2, (GetVlanIdsL x).2 = false := fun x hx =>
        h x (List.mem_cons_of_mem _ hx)
      have hjoin : (GetVlanIdsL (joinComma (r2 :: rs2))).2 = false := by
        rw [ih (by simp) hrest]
      show GetVlanIdsL (r ++ ',' :: joinComma (r2 :: rs2)) = _
      rw [GetVlanIdsL_append _ _ hr hjoin, ih (by simp) hrest]
      simp

theorem insertionSort_eq_iff_perm (l1 l2 : List Nat) :
    List.insertionSort (· ≤ ·) l1 = List.insertionSort (· ≤ ·) l2 ↔ List.Perm l1 l2 := by
  constructor
  · intro h
    have p1 := (List.perm_insertionSort (· ≤ ·) l1).symm
    have p2 := List.perm_insertionSort (· ≤ ·) l2
    rw [h] at p1
    exact p1.trans p2
  · intro h
    refine List.eq_of_perm_of_sorted ?_ (List.sorted_insertionSort _ _)
      (List.sorted_insertionSort _ _)
    exact (List.perm_insertionSort _ l1).trans (h.trans (List.perm_insertionSort _ l2).symm)

theorem collectRanges_ok (ovs : List Overlay) (h : ovs.all overlayOk = true) :
    collectRanges ovs = .ok (ovs.map overlayRange) := by
  induction ovs with
  | nil => rfl
  | cons o os ih =>
    rw [List.all_cons, Bool.and_eq_true] at h
    obtain ⟨ho, hos⟩ := h
    rcases o with ⟨op, onw, orr⟩
    rcases op with _ | p
    · simp [overlayOk] at ho
    rcases onw with _ | nw
    · simp [overlayOk] at ho
    rcases orr with _ | r
    · simp [overlayOk] at ho
    have hr : (GetVlanIds r).2 = false := by simpa [overlayOk] using ho
    show collectRanges _ = _
    unfold collectRanges
    simp only []
    rw [if_neg (by rw [hr]; exact Bool.false_ne_true), ih hos]
    simp [overlayRange]

/-- The validator on an sriov NAD with non-empty trunk and non-empty
nodeSelector and resourceName annotations lands in the overlay
check. -/
theorem topoAction_overlay_reduce (nad : Nad)
    (htype : nad.netConf.type = "sriov")
    (hns : annoNonEmpty (alookup nad.annotations NodeSelectorKey) = true)
    (hres : annoNonEmpty (alookup nad.annotations SriovResourceKey) = true)
    (htr : nad.netConf.vlanTrunk ≠ "") :
    ShouldTriggerTopoAction nad = overlayModeCheck nad.netConf nad := by
  unfold ShouldTriggerTopoAction
  rw [if_neg (by rw [htype]; exact fun hcc => hcc.2 rfl),
    if_neg (by rw [hns]; simp), if_neg (by rw [htype]; decide),
    if_neg (by rw [hres]; simp), if_pos htr]

/-- C6 (amended): for an eligible-shaped sriov overlay NAD whose trunk
parses and whose overlays are all well formed, `ShouldTriggerTopoAction`
accepts exactly when the concatenation of the overlay vlan ranges
equals the trunk as a MULTISET (sorted-list comparison): order is
ignored but duplicate vlans are counted, so set equality does not
suffice. -/
theorem topoAction_overlay_multiset (nad : Nad) (ovs : List Overlay)
    (htype : nad.netConf.type = "sriov")
    (hns : annoNonEmpty (alookup nad.annotations NodeSelectorKey) = true)
    (hres : annoNonEmpty (alookup nad.annotations SriovResourceKey) = true)
    (htr : nad.netConf.vlanTrunk ≠ "")
    (hparse : (GetVlanIds nad.netConf.vlanTrunk).2 = false)
    (hovs : nad.overlayAnno = OverlayAnno.parsed ovs)
    (hne : ovs ≠ [])
    (hok : ovs.all overlayOk = true) :
    (ShouldTriggerTopoAction nad).2.2 = none ↔
      (((ovs.map (fun o => (GetVlanIds (overlayRange o)).1)).flatten : List Nat) : Multiset Nat) =
        ((GetVlanIds nad.netConf.vlanTrunk).1 : Multiset Nat) := by
  rw [topoAction_overlay_reduce nad htype hns hres htr]
  have hjoin : GetVlanIdsL (joinComma ((ovs.map overlayRange).map String.toList)) =
      ((ovs.map (fun o => (GetVlanIds (overlayRange o)).1)).flatten, false) := by
    rw [GetVlanIdsL_join _ (by simpa using hne) ?parts]
    · congr 1
      rw [List.map_map, List.map_map]
      rfl
    case parts =>
      intro r hrm
      rw [List.map_map] at hrm
      obtain ⟨o, hom, rfl⟩ := List.mem_map.mp hrm
      have := List.all_eq_true.mp hok o hom
      rcases o with ⟨op, onw, orr⟩
      rcases op with _ | p
      · simp [overlayOk] at this
      rcases onw with _ | nw
      · simp [overlayOk] at this
      rcases orr with _ | r0
      · simp [overlayOk] at this
      simpa [overlayOk, overlayRange, GetVlanIds] using this
  unfold overlayModeCheck
  rw [if_neg (by rw [hparse]; exact Bool.false_ne_true), hovs]
  simp only [collectRanges_ok ovs hok]
  rw [hjoin]
  have hiff :
      (((ovs.map (fun o => (GetVlanIds (overlayRange o)).1)).flatten : List Nat) : Multiset Nat) =
        ((GetVlanIds nad.netConf.vlanTrunk).1 : Multiset Nat) ↔
      List.insertionSort (· ≤ ·) ((ovs.map (fun o => (GetVlanIds (overlayRange o)).1)).flatten) =
        List.insertionSort (· ≤ ·) (GetVlanIds nad.netConf.vlanTrunk).1 :=
    Multiset.coe_eq_coe.trans (insertionSort_eq_iff_perm _ _).symm
  by_cases hsort : List.insertionSort (· ≤ ·)
      ((ovs.map (fun o => (GetVlanIds (overlayRange o)).1)).flatten) =
      List.insertionSort (· ≤ ·) (GetVlanIds nad.netConf.vlanTrunk).1
  · rw [if_pos hsort]
    exact iff_of_true rfl (hiff.mpr hsort)
  · rw [if_neg hsort]
    constructor
    · intro hcc
      cases hcc
    · intro hm
      exact absurd (hiff.mp hm) hsort

/-- Witness for the amended C6: overlay range "20,10" against trunk
"10,20"; the iff instance is provided by the theorem. -/
theorem topoAction_overlay_multiset_witness :
    (ShouldTriggerTopoAction (nadOverlay "10,20" ["20,10"] "sel")).2.2 = none ↔
      ((([{ extProjectName := some "p", extNetworkName := some "n",
            vlanRange := some "20,10" }] : List Overlay).map
          (fun o => (GetVlanIds (overlayRange o)).1)).flatten : Multiset Nat) =
        ((GetVlanIds (nadOverlay "10,20" ["20,10"] "sel").netConf.vlanTrunk).1 : Multiset Nat) :=
  topoAction_overlay_multiset (nadOverlay "10,20" ["20,10"] "sel")
    [{ extProjectName := some "p", extNetworkName := some "n", vlanRange := some "20,10" }]
    (by decide) (by decide) (by decide) (by decide) (by decide) (by decide) (by decide)
    (by decide)

/-- C6 counterexample: trunk "5,5" and the single overlay range "5"
have equal vlan SETS, yet the validator reports the mismatch error:
the code compares sorted lists, on which the duplicate counts. -/
theorem topoAction_overlay_set_counterexample :
    (GetVlanIds "5,5").1.toFinset = (GetVlanIds "5").1.toFinset ∧
    ShouldTriggerTopoAction (nadOverlay "5,5" ["5"] "sel") =
      ((nadOverlay "5,5" ["5"] "sel").netConf, false, some TopoErr.vlanMismatch) := by
  constructor
  · decide
  · decide

/-! ## Claim C7: update classification around the nodeSelector -/

/-- C7: for a pair of eligible NADs, changing only the nodeSelector
annotation yields `UpdateAttachDetach`; in overlay mode changing the
vlan trunk and the nodeSelector together is an error; and any
transition from an eligible NAD to a non-eligible one is an error. -/
theorem topoUpdate_selector_rules (o n m : Nad) (oc nc : NetConf)
    (ho : ShouldTriggerTopoAction o = (oc, true, none))
    (hn : ShouldTriggerTopoAction n = (nc, true, none)) :
    (oc = nc →
      lookupD o.annotations SriovResourceKey = lookupD n.annotations SriovResourceKey →
      lookupD o.annotations ExtProjectNameKey = lookupD n.annotations ExtProjectNameKey →
      lookupD o.annotations ExtNetworkNameKey = lookupD n.annotations ExtNetworkNameKey →
      lookupD o.annotations NodeSelectorKey ≠ lookupD n.annotations NodeSelectorKey →
      ShouldTriggerTopoUpdate o n = (some NadAction.updateAttachDetach, nc, none)) ∧
    (oc.type = nc.type → oc.vlan = nc.vlan →
      lookupD o.annotations SriovResourceKey = lookupD n.annotations SriovResourceKey →
      oc.vlanTrunk ≠ "" → oc.vlanTrunk ≠ nc.vlanTrunk →
      lookupD o.annotations NodeSelectorKey ≠ lookupD n.annotations NodeSelectorKey →
      (ShouldTriggerTopoUpdate o n).2.2.isSome = true) ∧
    ((ShouldTriggerTopoAction m).2.1 = false →
      (ShouldTriggerTopoUpdate o m).2.2.isSome = true) := by
  refine ⟨?_, ?_, ?_⟩
  · intro heq hres hproj hnet hns
    subst heq
    simp only [ShouldTriggerTopoUpdate, ho, hn]
    simp [hres, hproj, hnet, hns]
  · intro htype hvlan hres htrne htrch hns
    have hmode : (oc.vlanTrunk == "") = false := by
      rw [beq_eq_false_iff_ne]
      exact htrne
    simp only [ShouldTriggerTopoUpdate, ho, hn]
    simp [htype, hvlan, hres, hmode, htrch, hns]
    split <;> rfl
  · intro htrig
    rcases hm : ShouldTriggerTopoAction m with ⟨mc, t2, e2⟩
    rw [hm] at htrig
    simp only [] at htrig
    subst htrig
    cases e2 with
    | none => simp [ShouldTriggerTopoUpdate, ho, hm]
    | some e => simp [ShouldTriggerTopoUpdate, ho, hm]

/-- Witness for C7: selector-only change on an ipvlan pair, trunk and
selector both changed on an overlay pair, and an eligible-to-ineligible
transition. -/
theorem topoUpdate_selector_rules_witness :
    ShouldTriggerTopoUpdate (nadIpvlan "s1") (nadIpvlan "s2") =
      (some NadAction.updateAttachDetach, (nadIpvlan "s2").netConf, none) ∧
    (ShouldTriggerTopoUpdate (nadOverlay "10,20" ["10,20"] "s1")
        (nadOverlay "10,20,30" ["10,20,30"] "s2")).2.2.isSome = true ∧
    (ShouldTriggerTopoUpdate (nadIpvlan "s1") nadNoSelector).2.2.isSome = true := by
  refine ⟨?_, ?_, ?_⟩
  · exact (topoUpdate_selector_rules (nadIpvlan "s1") (nadIpvlan "s2") nadNoSelector
      (nadIpvlan "s1").netConf (nadIpvlan "s2").netConf (by decide) (by decide)).1
      (by decide) (by decide) (by decide) (by decide) (by decide)
  · exact (topoUpdate_selector_rules (nadOverlay "10,20" ["10,20"] "s1")
      (nadOverlay "10,20,30" ["10,20,30"] "s2") nadNoSelector
      (nadOverlay "10,20" ["10,20"] "s1").netConf
      (nadOverlay "10,20,30" ["10,20,30"] "s2").netConf (by decide) (by decide)).2.1
      (by decide) (by decide) (by decide) (by decide) (by decide) (by decide)
  · exact (topoUpdate_selector_rules (nadIpvlan "s1") (nadIpvlan "s1") nadNoSelector
      (nadIpvlan "s1").netConf (nadIpvlan "s1").netConf (by decide) (by decide)).2.2
      (by decide)

/-! ## Claim C8: `UpdateAttach` and the vlan trunk -/

set_option maxHeartbeats 1000000 in
/-- C8 (amended): for eligible pairs, an `UpdateAttach` classification
implies the new vlan trunk contains every vlan of the old one (the
not-eligible-to-eligible transition also returns `UpdateAttach`, with
no relation between the trunks, which refutes the original claim); an
`UpdateAttachDetach` classification implies the nodeSelector changed,
and conversely a pair differing exactly in the nodeSelector is
classified `UpdateAttachDetach` (a changed nodeSelector alone is not
equivalent: an empty-to-overlay trunk change may accompany it). -/
theorem topoUpdate_updateAttach_superset (o n : Nad) (oc nc : NetConf)
    (ho : ShouldTriggerTopoAction o = (oc, true, none))
    (hn : ShouldTriggerTopoAction n = (nc, true, none)) :
    ((ShouldTriggerTopoUpdate o n).1 = some NadAction.updateAttach →
      ∀ v ∈ (GetVlanIds oc.vlanTrunk).1, v ∈ (GetVlanIds nc.vlanTrunk).1) ∧
    ((ShouldTriggerTopoUpdate o n).1 = some NadAction.updateAttachDetach →
      lookupD o.annotations NodeSelectorKey ≠ lookupD n.annotations NodeSelectorKey) ∧
    (oc = nc →
      lookupD o.annotations SriovResourceKey = lookupD n.annotations SriovResourceKey →
      lookupD o.annotations ExtProjectNameKey = lookupD n.annotations ExtProjectNameKey →
      lookupD o.annotations ExtNetworkNameKey = lookupD n.annotations ExtNetworkNameKey →
      lookupD o.annotations NodeSelectorKey ≠ lookupD n.annotations NodeSelectorKey →
      (ShouldTriggerTopoUpdate o n).1 = some NadAction.updateAttachDetach) := by
  refine ⟨?_, ?_, ?_⟩
  · intro h
    simp only [ShouldTriggerTopoUpdate, ho, hn] at h
    clear ho hn
    simp only [Bool.true_eq_false, and_false, false_and, and_true, if_false, true_and,
      if_true, ite_false, ite_true] at h
    split_ifs at h <;> simp_all
  · intro h
    simp only [ShouldTriggerTopoUpdate, ho, hn] at h
    clear ho hn
    simp only [Bool.true_eq_false, and_false, false_and, and_true, if_false, true_and,
      if_true, ite_false, ite_true] at h
    split_ifs at h <;> simp_all
  · intro heq hres hproj hnet hns
    subst heq
    simp only [ShouldTriggerTopoUpdate, ho, hn]
    simp [hres, hproj, hnet, hns]

/-- Witness for the amended C8: the trunk-growth pair of scenario S5
and the selector-only ipvlan pair. -/
theorem topoUpdate_updateAttach_superset_witness :
    ((ShouldTriggerTopoUpdate (nadOverlay "10,20" ["10,20"] "s")
        (nadOverlay "10,20,30" ["10,20,30"] "s")).1 = some NadAction.updateAttach ∧
      ∀ v ∈ (GetVlanIds (nadOverlay "10,20" ["10,20"] "s").netConf.vlanTrunk).1,
        v ∈ (GetVlanIds (nadOverlay "10,20,30" ["10,20,30"] "s").netConf.vlanTrunk).1) ∧
    lookupD (nadIpvlan "s1").annotations NodeSelectorKey ≠
      lookupD (nadIpvlan "s2").annotations NodeSelectorKey ∧
    (ShouldTriggerTopoUpdate (nadIpvlan "s1") (nadIpvlan "s2")).1 =
      some NadAction.updateAttachDetach := by
  refine ⟨⟨by decide, ?_⟩, ?_, ?_⟩
  · exact (topoUpdate_updateAttach_superset (nadOverlay "10,20" ["10,20"] "s")
      (nadOverlay "10,20,30" ["10,20,30"] "s") (nadOverlay "10,20" ["10,20"] "s").netConf
      (nadOverlay "10,20,30" ["10,20,30"] "s").netConf (by decide) (by decide)).1 (by decide)
  · exact (topoUpdate_updateAttach_superset (nadIpvlan "s1") (nadIpvlan "s2")
      (nadIpvlan "s1").netConf (nadIpvlan "s2").netConf (by decide) (by decide)).2.1
      (by decide)
  · exact (topoUpdate_updateAttach_superset (nadIpvlan "s1") (nadIpvlan "s2")
      (nadIpvlan "s1").netConf (nadIpvlan "s2").netConf (by decide) (by decide)).2.2
      (by decide) (by decide) (by decide) (by decide) (by decide)

/-- C8 counterexample: an ineligible old NAD with trunk "100" against
an eligible overlay NAD with trunk "50" is classified `UpdateAttach`,
yet vlan 100 of the old trunk is not in the new trunk: the new
vlan set is not a superset of the old one. -/
theorem topoUpdate_updateAttach_counterexample :
    (ShouldTriggerTopoUpdate nadNoSelector (nadOverlay "50" ["50"] "sel")).1 =
      some NadAction.updateAttach ∧
    (100 : Nat) ∈ (GetVlanIds nadNoSelector.netConf.vlanTrunk).1 ∧
    (100 : Nat) ∉ (GetVlanIds (nadOverlay "50" ["50"] "sel").netConf.vlanTrunk).1 := by
  refine ⟨by decide, by decide, by decide⟩

/-! ## Claim C1: idempotence of `CreateSubnetInterface` -/

theorem createLabelStep_lookups {env : FssEnv} {db : Database} {tr : List Request}
    {sid : String} {vlanID : Int}
    (h : (createLabelStep env db tr sid vlanID).err = none) :
    (createLabelStep env db tr sid vlanID).fssSubnetId = sid ∧
    (createLabelStep env db tr sid vlanID).db.workloadMapping = db.workloadMapping ∧
    (createLabelStep env db tr sid vlanID).db.subnetMapping = db.subnetMapping ∧
    alookup (((createLabelStep env db tr sid vlanID).db.hostPortLabels sid).getD [])
      (vlanOfId vlanID) = some (createLabelStep env db tr sid vlanID).hostPortLabelId := by
  unfold createLabelStep at h ⊢
  cases hp : env.postHostPortLabel (labelRequest env sid vlanID) with
  | none => rw [hp] at h; simp at h
  | some p =>
    obtain ⟨st, resp⟩ := p
    rw [hp] at h
    dsimp only at h ⊢
    by_cases hst : st ≠ 201
    · rw [if_pos hst] at h; simp at h
    · rw [if_neg hst]
      refine ⟨rfl, rfl, rfl, ?_⟩
      simp [msetIn]

theorem createSubnetStep_lookups {env : FssEnv} {db : Database} {tr : List Request}
    {wid s : String} {vlanID : Int}
    (h : (createSubnetStep env db tr wid s vlanID).err = none) :
    (createSubnetStep env db tr wid s vlanID).db.workloadMapping = db.workloadMapping ∧
    alookup (((createSubnetStep env db tr wid s vlanID).db.subnetMapping wid).getD []) s =
      some (createSubnetStep env db tr wid s vlanID).fssSubnetId ∧
    alookup (((createSubnetStep env db tr wid s vlanID).db.hostPortLabels
        (createSubnetStep env db tr wid s vlanID).fssSubnetId).getD []) (vlanOfId vlanID) =
      some (createSubnetStep env db tr wid s vlanID).hostPortLabelId := by
  unfold createSubnetStep at h ⊢
  cases hp : env.postSubnet (subnetRequest env db wid s) with
  | none => rw [hp] at h; simp at h
  | some p =>
    obtain ⟨st, resp⟩ := p
    rw [hp] at h
    dsimp only at h ⊢
    by_cases hst : st ≠ 201
    · rw [if_pos hst] at h; simp at h
    · rw [if_neg hst] at h ⊢
      obtain ⟨e1, e2, e3, e4⟩ := createLabelStep_lookups h
      refine ⟨?_, ?_, ?_⟩
      · rw [e2]
      · rw [e3, e1]
        simp [msetIn]
      · rw [e1]
        exact e4

theorem createTenantStep_lookups {env : FssEnv} {db : Database} {w s : String} {vlanID : Int}
    (h : (createTenantStep env db w s vlanID).err = none) :
    ∃ wid,
      (createTenantStep env db w s vlanID).db.workloadMapping w = some wid ∧
      alookup (((createTenantStep env db w s vlanID).db.subnetMapping wid).getD []) s =
        some (createTenantStep env db w s vlanID).fssSubnetId ∧
      alookup (((createTenantStep env db w s vlanID).db.hostPortLabels
          (createTenantStep env db w s vlanID).fssSubnetId).getD []) (vlanOfId vlanID) =
        some (createTenantStep env db w s vlanID).hostPortLabelId := by
  unfold createTenantStep at h ⊢
  cases hp : env.postTenant (tenantRequest env w) with
  | none => rw [hp] at h; simp at h
  | some p =>
    obtain ⟨st, resp⟩ := p
    rw [hp] at h
    dsimp only at h ⊢
    by_cases hst : st ≠ 201
    · rw [if_pos hst] at h; simp at h
    · rw [if_neg hst] at h ⊢
      obtain ⟨e1, e2, e3⟩ := createSubnetStep_lookups h
      refine ⟨resp.fssWorkloadEvpnId, ?_, ?_, ?_⟩
      · rw [e1]
        simp
      · exact e2
      · exact e3

theorem create_success_lookups (env : FssEnv) (db : Database) (w s : String) (vlanID : Int)
    (h : (CreateSubnetInterface env db w s vlanID).err = none) :
    ∃ wid,
      (CreateSubnetInterface env db w s vlanID).db.workloadMapping w = some wid ∧
      alookup (((CreateSubnetInterface env db w s vlanID).db.subnetMapping wid).getD []) s =
        some (CreateSubnetInterface env db w s vlanID).fssSubnetId ∧
      alookup (((CreateSubnetInterface env db w s vlanID).db.hostPortLabels
          (CreateSubnetInterface env db w s vlanID).fssSubnetId).getD []) (vlanOfId vlanID) =
        some (CreateSubnetInterface env db w s vlanID).hostPortLabelId := by
  unfold CreateSubnetInterface at h ⊢
  cases h1 : db.workloadMapping w with
  | none =>
    rw [h1] at h
    exact createTenantStep_lookups h
  | some wid =>
    rw [h1] at h
    dsimp only at h ⊢
    cases h2 : alookup ((db.subnetMapping wid).getD []) s with
    | none =>
      rw [h2] at h
      dsimp only at h
      obtain ⟨e1, e2, e3⟩ := createSubnetStep_lookups h
      exact ⟨wid, by rw [e1]; exact h1, e2, e3⟩
    | some sid =>
      rw [h2] at h
      dsimp only at h ⊢
      cases h3 : alookup ((db.hostPortLabels sid).getD []) (vlanOfId vlanID) with
      | none =>
        rw [h3] at h
        dsimp only at h
        obtain ⟨e1, e2, e3, e4⟩ := createLabelStep_lookups h
        refine ⟨wid, by rw [e2]; exact h1, ?_, ?_⟩
        · rw [e3, e1, h2]
        · rw [e1]
          exact e4
      | some lid => exact ⟨wid, h1, by rw [h2], by rw [h3]⟩

/-- C1: after a successful `CreateSubnetInterface`, a second call with
the same arguments returns the same (fssSubnetId, hostPortLabelId)
pair, issues no server request at all (empty trace, hence no POST and
no new Tenant, Subnet or HostPortLabel), and leaves the mirror
unchanged. -/
theorem createSubnetInterface_idempotent (env : FssEnv) (db : Database) (w s : String)
    (vlanID : Int) (h : (CreateSubnetInterface env db w s vlanID).err = none) :
    CreateSubnetInterface env (CreateSubnetInterface env db w s vlanID).db w s vlanID =
      ⟨(CreateSubnetInterface env db w s vlanID).db, [],
        (CreateSubnetInterface env db w s vlanID).fssSubnetId,
        (CreateSubnetInterface env db w s vlanID).hostPortLabelId, none⟩ := by
  obtain ⟨wid, h1, h2, h3⟩ := create_success_lookups env db w s vlanID h
  conv_lhs => rw [CreateSubnetInterface]
  rw [h1]
  dsimp only
  rw [h2]
  dsimp only
  rw [h3]

/-- Witness for C1 on the empty mirror against a healthy server. -/
theorem createSubnetInterface_idempotent_witness :
    (CreateSubnetInterface serverEnv initialDatabase "projA" "subX" 100).err = none ∧
    CreateSubnetInterface serverEnv
        (CreateSubnetInterface serverEnv initialDatabase "projA" "subX" 100).db
        "projA" "subX" 100 =
      ⟨(CreateSubnetInterface serverEnv initialDatabase "projA" "subX" 100).db, [],
        (CreateSubnetInterface serverEnv initialDatabase "projA" "subX" 100).fssSubnetId,
        (CreateSubnetInterface serverEnv initialDatabase "projA" "subX" 100).hostPortLabelId,
        none⟩ :=
  ⟨rfl, createSubnetInterface_idempotent serverEnv initialDatabase "projA" "subX" 100 rfl⟩

/-! ## Claims C2 and C3: `DeleteSubnetInterface` -/


theorem mdelIn_self {κ ν : Type} [DecidableEq κ] (m : String → Option (List (κ × ν)))
    (k : String) (key : κ) : mdelIn m k key k = (m k).map (fun l => adel l key) := by
  simp [mdelIn]

theorem mdelIn_ne {κ ν : Type} [DecidableEq κ] (m : String → Option (List (κ × ν)))
    {x k : String} (key : κ) (h : x ≠ k) : mdelIn m k key x = m x := by
  simp [mdelIn, h]

theorem mdelIn_lookup_self {κ ν : Type} [DecidableEq κ] (m : String → Option (List (κ × ν)))
    (k : String) (key : κ) : alookup (((mdelIn m k key) k).getD []) key = none := by
  rw [mdelIn_self]
  cases m k <;> simp

theorem mdelIn_self_getD {κ ν : Type} [DecidableEq κ] (m : String → Option (List (κ × ν)))
    (k : String) (key : κ) : ((mdelIn m k key) k).getD [] = adel ((m k).getD []) key := by
  rw [mdelIn_self]
  cases m k <;> simp [adel]

theorem collapse_props (env : FssEnv) (db : Database) (tr : List Request)
    (res : Option EngineErr) (wid sid : String) (v : Vlan) (lbl : String)
    (h1 : alookup ((db.hostPortLabels sid).getD []) v = none)
    (h2 : alookup ((db.attachedLabels sid).getD []) v = none)
    (h3 : db.attachedPorts lbl = none) :
    (deleteDetachCollapse env db tr res wid sid).err = res ∧
    alookup (((deleteDetachCollapse env db tr res wid sid).db.hostPortLabels sid).getD []) v = none ∧
    alookup (((deleteDetachCollapse env db tr res wid sid).db.attachedLabels sid).getD []) v = none ∧
    (deleteDetachCollapse env db tr res wid sid).db.attachedPorts lbl = none := by
  unfold deleteDetachCollapse
  by_cases hc1 : ((db.attachedLabels sid).getD []) = []
  · rw [if_pos hc1]
    cases hsn : db.subnets sid with
    | none =>
      dsimp only
      by_cases hc2 : ((db.subnetMapping wid).getD []) = []
      · rw [if_pos hc2]
        cases ht : db.tenants wid with
        | none => exact ⟨rfl, h1, h2, h3⟩
        | some t => exact ⟨rfl, h1, h2, h3⟩
      · rw [if_neg hc2]
        exact ⟨rfl, h1, h2, h3⟩
    | some sn =>
      dsimp only
      have g1 : alookup (((mdel db.hostPortLabels sid) sid).getD []) v = none := by simp
      have g2 : alookup (((mdel db.attachedLabels sid) sid).getD []) v = none := by simp
      by_cases hc2 : (((mdelIn db.subnetMapping wid sn.fssSubnetName) wid).getD []) = []
      · rw [if_pos hc2]
        cases ht : db.tenants wid with
        | none => exact ⟨rfl, g1, g2, h3⟩
        | some t => exact ⟨rfl, g1, g2, h3⟩
      · rw [if_neg hc2]
        exact ⟨rfl, g1, g2, h3⟩
  · rw [if_neg hc1]
    exact ⟨rfl, h1, h2, h3⟩

/-- C3: when the server DELETE of the attached HostPortLabel answers
with a status other than 204, `DeleteSubnetInterface` returns an error
but still removes `hostPortLabels[sid][vlan]`,
`attachedLabels[sid][vlan]` and `attachedPorts[labelId]` from the
mirror, whatever the request type. -/
theorem deleteSubnetInterface_badStatus (env : FssEnv) (db : Database)
    (wid sid : String) (vlanID : Int) (labelId : String) (rt : NadAction) (st : Nat)
    (hatt : alookup ((db.attachedLabels sid).getD []) (vlanOfId vlanID) = some labelId)
    (hdel : env.del (hostPortLabelPath ++ "/" ++ labelId) = some st)
    (hbad : st ≠ 204) :
    (DeleteSubnetInterface env db wid sid vlanID labelId rt).err =
      some (EngineErr.badStatus st) ∧
    alookup (((DeleteSubnetInterface env db wid sid vlanID labelId rt).db.hostPortLabels
      sid).getD []) (vlanOfId vlanID) = none ∧
    alookup (((DeleteSubnetInterface env db wid sid vlanID labelId rt).db.attachedLabels
      sid).getD []) (vlanOfId vlanID) = none ∧
    (DeleteSubnetInterface env db wid sid vlanID labelId rt).db.attachedPorts labelId = none := by
  unfold DeleteSubnetInterface
  dsimp only
  rw [if_pos hatt, hdel]
  dsimp only
  rw [if_pos hbad]
  have g1 := mdelIn_lookup_self db.hostPortLabels sid (vlanOfId vlanID)
  have g2 := mdelIn_lookup_self db.attachedLabels sid (vlanOfId vlanID)
  by_cases hrt : rt = NadAction.deleteDetach
  · rw [if_pos hrt]
    exact collapse_props env _ _ _ wid sid (vlanOfId vlanID) labelId g1 g2 (by simp)
  · rw [if_neg hrt]
    exact ⟨rfl, g1, g2, by simp⟩

/-- C2: a successful `DeleteSubnetInterface` with `DeleteDetach` that
removes the last attached label of subnet `sid` leaves no
`subnets[sid]`, `hostPortLabels[sid]` or `attachedLabels[sid]` entry
and issues a DELETE for the Subnet; if that subnet was the last one of
tenant `wid`, `tenants[wid]` and `workloadMapping[name]` are gone as
well and a DELETE for the Tenant was issued. -/
theorem deleteSubnetInterface_collapse (env : FssEnv) (db : Database)
    (wid sid : String) (vlanID : Int) (labelId : String) (sn : Subnet)
    (hatt : alookup ((db.attachedLabels sid).getD []) (vlanOfId vlanID) = some labelId)
    (hdel : env.del (hostPortLabelPath ++ "/" ++ labelId) = some 204)
    (hlast : adel ((db.attachedLabels sid).getD []) (vlanOfId vlanID) = [])
    (hsub : db.subnets sid = some sn) :
    (DeleteSubnetInterface env db wid sid vlanID labelId NadAction.deleteDetach).err = none ∧
    (DeleteSubnetInterface env db wid sid vlanID labelId NadAction.deleteDetach).db.subnets
      sid = none ∧
    (DeleteSubnetInterface env db wid sid vlanID labelId
      NadAction.deleteDetach).db.hostPortLabels sid = none ∧
    (DeleteSubnetInterface env db wid sid vlanID labelId
      NadAction.deleteDetach).db.attachedLabels sid = none ∧
    Request.del (subnetPath ++ "/" ++ sn.id) ∈
      (DeleteSubnetInterface env db wid sid vlanID labelId NadAction.deleteDetach).trace ∧
    (∀ t : Tenant, db.tenants wid = some t →
      adel ((db.subnetMapping wid).getD []) sn.fssSubnetName = [] →
      (DeleteSubnetInterface env db wid sid vlanID labelId
        NadAction.deleteDetach).db.tenants wid = none ∧
      (DeleteSubnetInterface env db wid sid vlanID labelId
        NadAction.deleteDetach).db.workloadMapping t.fssWorkloadEvpnName = none ∧
      (DeleteSubnetInterface env db wid sid vlanID labelId
        NadAction.deleteDetach).db.subnetMapping wid = none ∧
      Request.del (tenantPath ++ "/" ++ t.id) ∈
        (DeleteSubnetInterface env db wid sid vlanID labelId NadAction.deleteDetach).trace) := by
  obtain ⟨inner, hinner⟩ : ∃ inner, db.attachedLabels sid = some inner := by
    cases hx : db.attachedLabels sid with
    | none => rw [hx] at hatt; simp at hatt
    | some l => exact ⟨l, rfl⟩
  unfold DeleteSubnetInterface
  dsimp only
  rw [if_pos hatt, hdel]
  dsimp only
  rw [if_neg (show ¬((204 : Nat) ≠ 204) by simp),
    if_pos (show NadAction.deleteDetach = NadAction.deleteDetach from rfl)]
  unfold deleteDetachCollapse
  have hc1 : (((mdelIn db.attachedLabels sid (vlanOfId vlanID)) sid).getD []) = [] := by
    rw [mdelIn_self_getD]
    exact hlast
  rw [if_pos hc1]
  dsimp only
  rw [hsub]
  dsimp only
  by_cases hc2 : (((mdelIn db.subnetMapping wid sn.fssSubnetName) wid).getD []) = []
  · rw [if_pos hc2]
    cases ht : db.tenants wid with
    | none =>
      refine ⟨rfl, by simp, by simp, by simp, by simp, ?_⟩
      intro t htt _
      simp at htt
    | some t =>
      refine ⟨rfl, by simp, by simp, by simp, by simp, ?_⟩
      intro t2 htt _
      injection htt with h2
      subst h2
      exact ⟨by simp, by simp, by simp, by simp⟩
  · rw [if_neg hc2]
    refine ⟨rfl, by simp, by simp, by simp, by simp, ?_⟩
    intro t htt hadel
    rw [mdelIn_self_getD] at hc2
    exact absurd hadel hc2

/-- Witness for C3 on the one-label mirror against a server whose
DELETE answers 500. -/
theorem deleteSubnetInterface_badStatus_witness :
    (DeleteSubnetInterface serverEnvBadDelete oneLabelDb "W1" "S1" 100 "L1"
      NadAction.create).err = some (EngineErr.badStatus 500) ∧
    alookup (((DeleteSubnetInterface serverEnvBadDelete oneLabelDb "W1" "S1" 100 "L1"
      NadAction.create).db.hostPortLabels "S1").getD []) (vlanOfId 100) = none ∧
    alookup (((DeleteSubnetInterface serverEnvBadDelete oneLabelDb "W1" "S1" 100 "L1"
      NadAction.create).db.attachedLabels "S1").getD []) (vlanOfId 100) = none ∧
    (DeleteSubnetInterface serverEnvBadDelete oneLabelDb "W1" "S1" 100 "L1"
      NadAction.create).db.attachedPorts "L1" = none :=
  deleteSubnetInterface_badStatus serverEnvBadDelete oneLabelDb "W1" "S1" 100 "L1"
    NadAction.create 500 (by decide) rfl (by decide)

/-- Witness for C2 on the one-label mirror: the delete empties the
subnet and then the tenant. -/
theorem deleteSubnetInterface_collapse_witness :
    (DeleteSubnetInterface serverEnv oneLabelDb "W1" "S1" 100 "L1"
      NadAction.deleteDetach).err = none ∧
    (DeleteSubnetInterface serverEnv oneLabelDb "W1" "S1" 100 "L1"
      NadAction.deleteDetach).db.subnets "S1" = none ∧
    (DeleteSubnetInterface serverEnv oneLabelDb "W1" "S1" 100 "L1"
      NadAction.deleteDetach).db.hostPortLabels "S1" = none ∧
    (DeleteSubnetInterface serverEnv oneLabelDb "W1" "S1" 100 "L1"
      NadAction.deleteDetach).db.attachedLabels "S1" = none ∧
    Request.del (subnetPath ++ "/" ++ witnessSubnet.id) ∈
      (DeleteSubnetInterface serverEnv oneLabelDb "W1" "S1" 100 "L1"
        NadAction.deleteDetach).trace ∧
    (DeleteSubnetInterface serverEnv oneLabelDb "W1" "S1" 100 "L1"
      NadAction.deleteDetach).db.tenants "W1" = none ∧
    (DeleteSubnetInterface serverEnv oneLabelDb "W1" "S1" 100 "L1"
      NadAction.deleteDetach).db.workloadMapping witnessTenant.fssWorkloadEvpnName = none ∧
    (DeleteSubnetInterface serverEnv oneLabelDb "W1" "S1" 100 "L1"
      NadAction.deleteDetach).db.subnetMapping "W1" = none ∧
    Request.del (tenantPath ++ "/" ++ witnessTenant.id) ∈
      (DeleteSubnetInterface serverEnv oneLabelDb "W1" "S1" 100 "L1"
        NadAction.deleteDetach).trace := by
  have h := deleteSubnetInterface_collapse serverEnv oneLabelDb "W1" "S1" 100 "L1"
    witnessSubnet (by decide) rfl (by decide) (by decide)
  obtain ⟨g1, g2, g3, g4, g5, hB⟩ := h
  obtain ⟨g6, g7, g8, g9⟩ := hB witnessTenant (by decide) (by decide)
  exact ⟨g1, g2, g3, g4, g5, g6, g7, g8, g9⟩

/-! ## Claim C10: `GetHostPort` inserts an empty node entry -/

/-- C10: `GetHostPort` is not a pure lookup: on a node unknown to the
mirror it inserts an empty map under `hostPorts[node]` and returns
("", false), leaving every other mirror field unchanged (the record
update touches only `hostPorts`). -/
theorem getHostPort_inserts_node (db : Database) (node port : String)
    (h : db.hostPorts node = none) :
    GetHostPort db node port =
      ({ db with hostPorts := mset db.hostPorts node [] }, "", false) := by
  unfold GetHostPort
  rw [h]

/-- Witness for C10 on the empty mirror. -/
theorem getHostPort_inserts_node_witness :
    initialDatabase.hostPorts "node1" = none ∧
    GetHostPort initialDatabase "node1" "eth0" =
      ({ initialDatabase with hostPorts := mset initialDatabase.hostPorts "node1" [] },
        "", false) :=
  ⟨rfl, getHostPort_inserts_node initialDatabase "node1" "eth0" rfl⟩

/-! ## Claim C4: the attached-label invariant over operation sequences -/

/-- The invariant only depends on the two label maps. -/
theorem inv_congr {db1 db2 : Database}
    (hA : db2.attachedLabels = db1.attachedLabels)
    (hL : db2.hostPortLabels = db1.hostPortLabels)
    (h : AttachedSubset db1) : AttachedSubset db2 := by
  intro sid v L hl
  rw [hA] at hl
  rw [hL]
  exact h sid v L hl

/-- `createLabelStep` preserves the invariant when no label is attached
yet at this subnet and vlan (it only adds a `hostPortLabels` entry). -/
theorem inv_createLabelStep {env : FssEnv} {db : Database} {tr : List Request}
    {sid : String} {vlanID : Int} (h : AttachedSubset db)
    (hnone : alookup ((db.attachedLabels sid).getD []) (vlanOfId vlanID) = none) :
    AttachedSubset (createLabelStep env db tr sid vlanID).db := by
  unfold createLabelStep
  cases hp : env.postHostPortLabel (labelRequest env sid vlanID) with
  | none => exact h
  | some p =>
    obtain ⟨st, resp⟩ := p
    dsimp only
    by_cases hst : st ≠ 201
    · rw [if_pos hst]
      exact h
    · rw [if_neg hst]
      intro x v L hl
      have hbase := h x v L hl
      show alookup (((msetIn db.hostPortLabels sid (vlanOfId vlanID) resp.id) x).getD []) v =
        some L
      by_cases hx : x = sid
      · subst hx
        unfold msetIn
        rw [mset_self]
        simp only [Option.getD_some]
        by_cases hv : v = vlanOfId vlanID
        · subst hv
          rw [hnone] at hl
          cases hl
        · rw [alookup_aset_ne _ hv]
          exact hbase
      · unfold msetIn
        rw [mset_ne _ _ hx]
        exact hbase

/-- `createSubnetStep` preserves the invariant: the fresh subnet starts
with empty label maps. -/
theorem inv_createSubnetStep {env : FssEnv} {db : Database} {tr : List Request}
    {wid s : String} {vlanID : Int} (h : AttachedSubset db) :
    AttachedSubset (createSubnetStep env db tr wid s vlanID).db := by
  unfold createSubnetStep
  cases hp : env.postSubnet (subnetRequest env db wid s) with
  | none => exact h
  | some p =>
    obtain ⟨st, resp⟩ := p
    dsimp only
    by_cases hst : st ≠ 201
    · rw [if_pos hst]
      exact h
    · rw [if_neg hst]
      refine inv_createLabelStep ?_ ?_
      · intro x v L hl
        dsimp only at hl
        show alookup (((mset db.hostPortLabels resp.fssSubnetId []) x).getD []) v = some L
        by_cases hx : x = resp.fssSubnetId
        · subst hx
          rw [mset_self] at hl
          simp at hl
        · rw [mset_ne _ _ hx] at hl
          rw [mset_ne _ _ hx]
          exact h x v L hl
      · show alookup (((mset db.attachedLabels resp.fssSubnetId []) resp.fssSubnetId).getD [])
          (vlanOfId vlanID) = none
        rw [mset_self]
        simp

/-- `createTenantStep` preserves the invariant. -/
theorem inv_createTenantStep {env : FssEnv} {db : Database} {w s : String} {vlanID : Int}
    (h : AttachedSubset db) :
    AttachedSubset (createTenantStep env db w s vlanID).db := by
  unfold createTenantStep
  cases hp : env.postTenant (tenantRequest env w) with
  | none => exact h
  | some p =>
    obtain ⟨st, resp⟩ := p
    dsimp only
    by_cases hst : st ≠ 201
    · rw [if_pos hst]
      exact h
    · rw [if_neg hst]
      exact inv_createSubnetStep (inv_congr rfl rfl h)

/-- `CreateSubnetInterface` preserves the invariant in every branch. -/
theorem inv_CreateSubnetInterface {env : FssEnv} {db : Database} {w s : String} {vlanID : Int}
    (h : AttachedSubset db) :
    AttachedSubset (CreateSubnetInterface env db w s vlanID).db := by
  unfold CreateSubnetInterface
  cases h1 : db.workloadMapping w with
  | none => exact inv_createTenantStep h
  | some wid =>
    dsimp only
    cases h2 : alookup ((db.subnetMapping wid).getD []) s with
    | none => exact inv_createSubnetStep h
    | some sid =>
      dsimp only
      cases h3 : alookup ((db.hostPortLabels sid).getD []) (vlanOfId vlanID) with
      | none =>
        refine inv_createLabelStep h ?_
        cases h4 : alookup ((db.attachedLabels sid).getD []) (vlanOfId vlanID) with
        | none => rfl
        | some L => rw [h sid _ L h4] at h3; cases h3
      | some lid => exact h

/-- `AttachSubnetInterface` preserves the invariant provided it is
called with the label recorded in `hostPortLabels[sid][vlan]` and the
server echoes the request label id. -/
theorem inv_AttachSubnetInterface {env : FssEnv} {db : Database} {sid : String}
    {vlanID : Int} {labelId : String}
    (hecho : EchoesLabelId env) (h : AttachedSubset db)
    (hok : alookup ((db.hostPortLabels sid).getD []) (vlanOfId vlanID) = some labelId) :
    AttachedSubset (AttachSubnetInterface env db sid vlanID labelId).db := by
  unfold AttachSubnetInterface
  dsimp only
  by_cases hatt : alookup ((db.attachedLabels sid).getD []) (vlanOfId vlanID) = some labelId
  · rw [if_pos hatt]
    exact h
  · rw [if_neg hatt]
    cases hp : env.postSubnetAssociation (subnetAssocRequest env db sid vlanID labelId) with
    | none => exact h
    | some p =>
      obtain ⟨st, resp⟩ := p
      dsimp only
      by_cases hst : st ≠ 201
      · rw [if_pos hst]
        exact h
      · rw [if_neg hst]
        have hres : resp.hostPortLabelId = labelId := hecho _ _ _ hp
        intro x v L hl
        dsimp only at hl
        show alookup ((db.hostPortLabels x).getD []) v = some L
        by_cases hx : x = sid
        · subst hx
          unfold msetIn at hl
          rw [mset_self] at hl
          simp only [Option.getD_some] at hl
          by_cases hv : v = vlanOfId vlanID
          · subst hv
            rw [alookup_aset_self] at hl
            injection hl with hl2
            subst hl2
            rw [hres]
            exact hok
          · rw [alookup_aset_ne _ hv] at hl
            exact h x v L hl
        · unfold msetIn at hl
          rw [mset_ne _ _ hx] at hl
          exact h x v L hl

/-- The upward collapse erases subnet-level entries of both label maps
together, so it preserves the invariant. -/
theorem inv_collapse {env : FssEnv} {db : Database} {tr : List Request}
    {res : Option EngineErr} {wid sid : String} (h : AttachedSubset db) :
    AttachedSubset (deleteDetachCollapse env db tr res wid sid).db := by
  unfold deleteDetachCollapse
  by_cases hc1 : ((db.attachedLabels sid).getD []) = []
  · rw [if_pos hc1]
    cases hsn : db.subnets sid with
    | none =>
      dsimp only
      by_cases hc2 : ((db.subnetMapping wid).getD []) = []
      · rw [if_pos hc2]
        cases ht : db.tenants wid with
        | none => exact h
        | some t => exact inv_congr rfl rfl h
      · rw [if_neg hc2]
        exact h
    | some sn =>
      dsimp only
      have herase : AttachedSubset
          { db with subnetMapping := mdelIn db.subnetMapping wid sn.fssSubnetName
                    subnets := mdel db.subnets sid
                    hostPortLabels := mdel db.hostPortLabels sid
                    attachedLabels := mdel db.attachedLabels sid } := by
        intro x v L hl
        dsimp only at hl
        show alookup (((mdel db.hostPortLabels sid) x).getD []) v = some L
        by_cases hx : x = sid
        · subst hx
          rw [mdel_self] at hl
          simp at hl
        · rw [mdel_ne _ hx] at hl
          rw [mdel_ne _ hx]
          exact h x v L hl
      by_cases hc2 : (((mdelIn db.subnetMapping wid sn.fssSubnetName) wid).getD []) = []
      · rw [if_pos hc2]
        cases ht : db.tenants wid with
        | none => exact herase
        | some t => exact inv_congr rfl rfl herase
      · rw [if_neg hc2]
        exact herase
  · rw [if_neg hc1]
    exact h

/-- `DeleteSubnetInterface` preserves the invariant: the vlan entry is
removed from both label maps in every branch. -/
theorem inv_DeleteSubnetInterface {env : FssEnv} {db : Database} {wid sid : String}
    {vlanID : Int} {labelId : String} {rt : NadAction} (h : AttachedSubset db) :
    AttachedSubset (DeleteSubnetInterface env db wid sid vlanID labelId rt).db := by
  unfold DeleteSubnetInterface
  dsimp only
  have hdb1 : AttachedSubset
      { db with hostPortLabels := mdelIn db.hostPortLabels sid (vlanOfId vlanID)
                attachedLabels := mdelIn db.attachedLabels sid (vlanOfId vlanID)
                attachedPorts := mdel db.attachedPorts labelId } := by
    intro x v L hl
    dsimp only at hl
    show alookup (((mdelIn db.hostPortLabels sid (vlanOfId vlanID)) x).getD []) v = some L
    by_cases hx : x = sid
    · subst hx
      rw [mdelIn_self] at hl ⊢
      cases ha : db.attachedLabels x with
      | none => rw [ha] at hl; simp at hl
      | some l =>
        rw [ha] at hl
        simp only [Option.map_some', Option.getD_some] at hl
        by_cases hv : v = vlanOfId vlanID
        · subst hv
          rw [alookup_adel_self] at hl
          cases hl
        · rw [alookup_adel_ne hv] at hl
          have hb := h x v L (by rw [ha]; exact hl)
          cases hb2 : db.hostPortLabels x with
          | none => rw [hb2] at hb; simp at hb
          | some lb =>
            rw [hb2] at hb
            simp only [Option.map_some', Option.getD_some]
            rw [alookup_adel_ne hv]
            simpa using hb
    · rw [mdelIn_ne _ _ hx] at hl
      rw [mdelIn_ne _ _ hx]
      exact h x v L hl
  by_cases hcond : alookup ((db.attachedLabels sid).getD []) (vlanOfId vlanID) = some labelId
  · rw [if_pos hcond]
    cases hd : env.del (hostPortLabelPath ++ "/" ++ labelId) with
    | none => exact h
    | some st =>
      dsimp only
      by_cases hrt : rt = NadAction.deleteDetach
      · rw [if_pos hrt]
        exact inv_collapse hdb1
      · rw [if_neg hrt]
        exact hdb1
  · rw [if_neg hcond]
    dsimp only
    by_cases hrt : rt = NadAction.deleteDetach
    · rw [if_pos hrt]
      exact inv_collapse hdb1
    · rw [if_neg hrt]
      exact hdb1

/-- `GetHostPort` never touches the label maps. -/
theorem GetHostPort_fields (db : Database) (node port : String) :
    (GetHostPort db node port).1.attachedLabels = db.attachedLabels ∧
    (GetHostPort db node port).1.hostPortLabels = db.hostPortLabels := by
  unfold GetHostPort
  cases db.hostPorts node with
  | none => exact ⟨rfl, rfl⟩
  | some l =>
    dsimp only
    cases alookup l port with
    | none => exact ⟨rfl, rfl⟩
    | some pid => exact ⟨rfl, rfl⟩

/-- `CreateHostPort` never touches the label maps. -/
theorem CreateHostPort_fields (env : FssEnv) (db : Database) (node : String) (port : Nic)
    (isLag : Bool) (parent : String) :
    (CreateHostPort env db node port isLag parent).1.attachedLabels = db.attachedLabels ∧
    (CreateHostPort env db node port isLag parent).1.hostPortLabels = db.hostPortLabels := by
  obtain ⟨hA, hL⟩ := GetHostPort_fields db node port.name
  unfold CreateHostPort
  dsimp only
  split
  · exact ⟨hA, hL⟩
  · split
    · exact ⟨hA, hL⟩
    · split
      · exact ⟨hA, hL⟩
      · exact ⟨hA, hL⟩

/-- `AttachHostPort` never touches the label maps. -/
theorem AttachHostPort_fields (env : FssEnv) (db : Database) (labelId node : String)
    (port : Nic) :
    (AttachHostPort env db labelId node port).db.attachedLabels = db.attachedLabels ∧
    (AttachHostPort env db labelId node port).db.hostPortLabels = db.hostPortLabels := by
  obtain ⟨hA, hL⟩ := GetHostPort_fields db node port.name
  unfold AttachHostPort
  dsimp only
  split
  · exact ⟨hA, hL⟩
  · split
    · exact ⟨hA, hL⟩
    · split
      · exact ⟨hA, hL⟩
      · split
        · exact ⟨hA, hL⟩
        · exact ⟨hA, hL⟩

/-- `DetachHostPort` never touches the label maps. -/
theorem DetachHostPort_fields (env : FssEnv) (db : Database) (labelId node : String)
    (port : Nic) :
    (DetachHostPort env db labelId node port).db.attachedLabels = db.attachedLabels ∧
    (DetachHostPort env db labelId node port).db.hostPortLabels = db.hostPortLabels := by
  unfold DetachHostPort
  split
  · exact ⟨rfl, rfl⟩
  · split
    · exact ⟨rfl, rfl⟩
    · dsimp only
      split
      · exact ⟨rfl, rfl⟩
      · exact ⟨rfl, rfl⟩

/-- Every single engine operation preserves the invariant, under the
façade condition for `AttachSubnetInterface`. -/
theorem inv_runOp {env : FssEnv} {db : Database} {op : Op}
    (hecho : EchoesLabelId env) (h : AttachedSubset db)
    (hfc : match op with
      | .attachSubnetInterface sid v l =>
        alookup ((db.hostPortLabels sid).getD []) (vlanOfId v) = some l
      | _ => True) :
    AttachedSubset (runOp env db op).1 := by
  cases op with
  | createSubnetInterface w s v => exact inv_CreateSubnetInterface h
  | attachSubnetInterface sid v l => exact inv_AttachSubnetInterface hecho h hfc
  | deleteSubnetInterface wid sid v l rt => exact inv_DeleteSubnetInterface h
  | createHostPort node port isLag parent =>
    obtain ⟨hA, hL⟩ := CreateHostPort_fields env db node port isLag parent
    exact inv_congr hA hL h
  | attachHostPort l node port =>
    obtain ⟨hA, hL⟩ := AttachHostPort_fields env db l node port
    exact inv_congr hA hL h
  | detachHostPort l node port =>
    obtain ⟨hA, hL⟩ := DetachHostPort_fields env db l node port
    exact inv_congr hA hL h

/-- C4: after every sequence of fabric-engine operations the mirror
satisfies `attachedLabels[sid][v] = L → hostPortLabels[sid][v] = L`,
PROVIDED each `AttachSubnetInterface` is invoked with the label
recorded in `hostPortLabels[sid][v]` (as the façade does, passing the
label returned by `CreateSubnetInterfaces`/`GetSubnetInterface`) and
the server echoes the request `hostPortLabelId`.  Success of the
sequence is not needed.  Without the façade condition the claim is
false: see the counterexample. -/
theorem attachedLabels_invariant {env : FssEnv} {db : Database} {ops : List Op}
    (hecho : EchoesLabelId env) (hinv : AttachedSubset db)
    (hfc : FacadeCalls env db ops) :
    AttachedSubset (runOps env db ops).1 := by
  induction ops generalizing db with
  | nil => exact hinv
  | cons op rest ih =>
    obtain ⟨h1, h2⟩ := hfc
    exact ih (inv_runOp hecho hinv h1) h2

/-- A successful operation sequence violating the C4 invariant:
`AttachSubnetInterface` called with label "L2" while the mirror
records "L1" succeeds (the server accepts any association) and stores
"L2" in `attachedLabels`, so the invariant fails for sequences with
unconstrained arguments. -/
theorem attachedLabels_invariant_counterexample :
    (runOps serverEnv initialDatabase
        [.createSubnetInterface "projA" "subX" 5,
         .attachSubnetInterface "S1" 5 "L2"]).2 = true ∧
    alookup (((runOps serverEnv initialDatabase
        [.createSubnetInterface "projA" "subX" 5,
         .attachSubnetInterface "S1" 5 "L2"]).1.attachedLabels "S1").getD [])
      (vlanOfId 5) = some "L2" ∧
    alookup (((runOps serverEnv initialDatabase
        [.createSubnetInterface "projA" "subX" 5,
         .attachSubnetInterface "S1" 5 "L2"]).1.hostPortLabels "S1").getD [])
      (vlanOfId 5) = some "L1" ∧
    ("L2" : String) ≠ "L1" := by decide

/-- Witness for C4 on a healthy echoing server and the façade-shaped
two-operation sequence. -/
theorem attachedLabels_invariant_witness :
    EchoesLabelId serverEnv ∧ AttachedSubset initialDatabase ∧
    FacadeCalls serverEnv initialDatabase
      [.createSubnetInterface "projA" "subX" 100,
       .attachSubnetInterface "S1" 100 "L1"] ∧
    AttachedSubset (runOps serverEnv initialDatabase
      [.createSubnetInterface "projA" "subX" 100,
       .attachSubnetInterface "S1" 100 "L1"]).1 := by
  have hecho : EchoesLabelId serverEnv := by
    intro req st resp h
    simp only [serverEnv] at h
    injection h with h2
    injection h2 with hst hr
    subst hr
    rfl
  have hinv : AttachedSubset initialDatabase := by
    intro sid v L hl
    simp [initialDatabase, alookup] at hl
  have hfc : FacadeCalls serverEnv initialDatabase
      [.createSubnetInterface "projA" "subX" 100,
       .attachSubnetInterface "S1" 100 "L1"] :=
    ⟨trivial, by decide, trivial⟩
  exact ⟨hecho, hinv, hfc, attachedLabels_invariant hecho hinv hfc⟩

end FssOp
